import Mathlib

/-!
Verification development for the swapi-service repository.

Each Lean definition below is a shallow embedding of a function of the
Python source, translated from `src/api/...`.  Stateful pieces (the
SQLAlchemy session, the outbound HTTP fetch) are made explicit: the
database is a value threaded through the populate pipeline, the HTTP
response is a parameter, and Python exceptions become `Except` values.
-/

set_option autoImplicit false

namespace Swapi

/-! ## URL-ID extractor — `src/api/utils/url_helpers.py`

`extract_id_from_url` runs `re.search(r"/(\d+)/?$", url)` and converts the
captured digit group with `int(...)`, raising `ValueError` when the regex
does not match.  The regex accepts exactly the strings that end with `'/'`,
then one or more digits, then at most one extra `'/'`.  We embed it as a
direct computation on the reversed character list: drop one optional
trailing `'/'`, take the maximal digit suffix, and require the character
just before that suffix to be `'/'`. -/

/-- Value of a digit string (most significant digit first), as computed by
Python's `int(...)` on a `\d+` match. -/
def digitsVal (ds : List Char) : Nat :=
  ds.foldl (fun acc c => acc * 10 + (c.toNat - 48)) 0

/-- Consume the single optional trailing slash allowed by `/?$` (input is
the reversed character list of the url). -/
def dropTrailingSlash : List Char → List Char
  | [] => []
  | c :: rest => if c = '/' then rest else c :: rest

/-- Core of the regex `/(\d+)/?$` on the reversed character list: after the
optional trailing slash there must be a non-empty run of digits followed
immediately by `'/'`. -/
def extractIdCore (rcs : List Char) : Option Nat :=
  let r := dropTrailingSlash rcs
  match r.takeWhile Char.isDigit, r.dropWhile Char.isDigit with
  | [], _ => none
  | ds, c :: _ => if c = '/' then some (digitsVal ds.reverse) else none
  | _, [] => none

/-- `extract_id_from_url` from `src/api/utils/url_helpers.py`; `none`
models the raised `ValueError`. -/
def extract_id_from_url (url : String) : Option Nat :=
  extractIdCore url.data.reverse

/-! ## Pagination service — `src/api/core/pagination/service.py` -/

/-- `PaginationParams` (`src/api/core/pagination/schemas.py`); the route
layer validates `offset ≥ 0` and `1 ≤ limit ≤ 100` before the service
runs. -/
structure PaginationParams where
  offset : Int
  limit : Int
deriving DecidableEq, Repr

/-- `PaginationMeta` (`src/api/core/pagination/schemas.py`). -/
structure PaginationMeta where
  total : Int
  offset : Int
  limit : Int
  has_next : Bool
  has_previous : Bool
  next_offset : Option Int
  previous_offset : Option Int
deriving DecidableEq, Repr

/-- `PaginatedResponse` (`src/api/core/pagination/schemas.py`). -/
structure PaginatedResponse (β : Type) where
  meta : PaginationMeta
  items : List β
deriving DecidableEq, Repr

/-- `PaginationService.paginate_with_repository`
(`src/api/core/pagination/service.py`).  The executed count query is
represented by its scalar result `count_result` (`None` from
`.scalar()` becomes `none`); the repository page fetch is the callable
`repository_get_all`. `total_result.scalar() or 0` is the Python `or`:
a falsy (`None` or `0`) scalar yields `0`. -/
def paginate_with_repository {α β : Type}
    (repository_get_all : Int → Int → List α)
    (count_result : Option Int)
    (params : PaginationParams)
    (serializer : List α → List β) : PaginatedResponse β :=
  let total : Int :=
    match count_result with
    | none => 0
    | some t => if t = 0 then 0 else t
  let items := repository_get_all params.offset params.limit
  let serialized_items := serializer items
  let has_next : Bool := decide (params.offset + params.limit < total)
  let has_previous : Bool := decide (params.offset > 0)
  let next_offset : Option Int :=
    if has_next then some (params.offset + params.limit) else none
  let previous_offset : Option Int :=
    if has_previous then some (max 0 (params.offset - params.limit)) else none
  { meta :=
      { total := total
        offset := params.offset
        limit := params.limit
        has_next := has_next
        has_previous := has_previous
        next_offset := next_offset
        previous_offset := previous_offset }
    items := serialized_items }

/-! ## Film schema validators — `src/api/domains/films/schemas.py` -/

/-- Python's whitespace class as used by `str.split()` with no argument
(restricted to the ASCII whitespace characters). -/
def pyIsSpace (c : Char) : Bool :=
  c == ' ' || c == '\t' || c == '\n' || c == '\r' || c == '\x0b' || c == '\x0c'

/-- Python `s.split()`: split on runs of whitespace, discarding empty
pieces. -/
def pySplitWhitespace (s : String) : List String :=
  (s.split pyIsSpace).filter (fun t => t ≠ "")

/-- The whitespace clean-up both validators perform on `opening_crawl`:
`v.replace("\r\n", " ").replace("\n", " ").replace("\r", " ")` followed by
`" ".join(cleaned.split())`. -/
def cleanCrawlText (v : String) : String :=
  let cleaned := ((v.replace "\r\n" " ").replace "\n" " ").replace "\r" " "
  String.intercalate " " (pySplitWhitespace cleaned)

/-- `FilmRelationSchema.truncate_opening_crawl`
(`src/api/domains/films/schemas.py`): the nested/relation view, which
whitespace-normalizes and truncates to 100 characters plus `"..."`. -/
def truncate_opening_crawl (v : Option String) : Option String :=
  match v with
  | some s =>
    let cleaned := cleanCrawlText s
    if cleaned.length > 100 then some (cleaned.take 100 ++ "...") else some cleaned
  | none => none

/-- `FilmSchema.clean_opening_crawl` (`src/api/domains/films/schemas.py`):
the standalone view, which only whitespace-normalizes. -/
def clean_opening_crawl (v : Option String) : Option String :=
  match v with
  | some s =>
    let cleaned := ((s.replace "\r\n" " ").replace "\n" " ").replace "\r" " "
    some (String.intercalate " " (pySplitWhitespace cleaned))
  | none => none

/-! ## Exceptions — `src/api/core/exceptions.py`

The exception classes become one inductive of raisable values.  The class
`BusinessValidationException` is imported and raised by the three domain
services and referenced by their routes, but its definition is absent from
the source tree; its constructor arguments `(message, field)` come from the
call sites and its HTTP status is modelled from the spec. -/

/-- One entry of `InputValidationException.details["validation_errors"]`:
`{field, message, type, input}`. -/
structure FieldError where
  field : String
  message : String
  type : String
  input : String
deriving DecidableEq, Repr

/-- The raisable exceptions of the service layer
(`src/api/core/exceptions.py`), plus Python's builtin `ValueError` (raised
by `extract_id_from_url` and `datetime.strptime`).
`businessValidation` is modelled from the spec: `BusinessValidationException`
has no definition under the source tree (only callers), and §7 of the spec
gives it status 400. -/
inductive PyExc where
  | notFound (message : String)
  | conflict (message : String)
  | externalService (message : String)
  | inputValidation (validation_errors : List FieldError)
  | internal (message : String) (details : List (String × String))
  | database (message : String)
  | businessValidation (message : String) (field : String)
  | valueError (message : String)
deriving DecidableEq, Repr

/-- `status_code` assigned by each exception class constructor
(`src/api/core/exceptions.py`); `none` for the builtin `ValueError`, which
carries no HTTP status.  The 400 of `businessValidation` is modelled from
the spec (§6/§7). -/
def PyExc.status_code : PyExc → Option Nat
  | .notFound _ => some 404
  | .conflict _ => some 409
  | .externalService _ => some 502
  | .inputValidation _ => some 422
  | .internal _ _ => some 500
  | .database _ => some 500
  | .businessValidation _ _ => some 400
  | .valueError _ => none

/-- `error_code` assigned by each exception class constructor
(`src/api/core/exceptions.py`); the business-validation code is modelled
from the spec ("a business-validation code (400)"). -/
def PyExc.error_code : PyExc → Option String
  | .notFound _ => some "NOT_FOUND"
  | .conflict _ => some "CONFLICT"
  | .externalService _ => some "EXTERNAL_SERVICE_ERROR"
  | .inputValidation _ => some "VALIDATION_ERROR"
  | .internal _ _ => some "INTERNAL_SERVER_ERROR"
  | .database _ => some "DATABASE_ERROR"
  | .businessValidation _ _ => some "BUSINESS_VALIDATION_ERROR"
  | .valueError _ => none

/-- `str(e)` — the message `Exception.__init__` was given. -/
def PyExc.str : PyExc → String
  | .notFound m => m
  | .conflict m => m
  | .externalService m => m
  | .inputValidation errs => "Validation failed for " ++ toString errs.length ++ " field(s)"
  | .internal m _ => m
  | .database m => m
  | .businessValidation m _ => m
  | .valueError m => m

/-- `BaseSuccessfullResponse` / `PopulateDBResponse`
(`src/api/core/schemas.py`, `src/api/core/populatedb/schemas.py`). -/
structure PopulateDBResponse where
  message : String := "Operation successful"
deriving DecidableEq, Repr

/-! ## Domain listing services — `src/api/domains/{characters,films,starships}/service.py`

Each service first validates the optional filter string, then asks the
pagination service to run the count query and one page fetch.  The
database work is represented by the `count_result` scalar and the two
page-fetch callables; the returned `List QueryAction` records which
queries were executed, in order. -/

/-- A query executed against the storage layer. -/
inductive QueryAction where
  | countQuery
  | pageFetch
deriving DecidableEq, Repr

/-- Python `str.strip()` with no argument (ASCII whitespace). -/
def pyStrip (s : String) : String :=
  String.mk (((s.data.dropWhile pyIsSpace).reverse.dropWhile pyIsSpace).reverse)

/-- `CharacterService.get_all_characters`
(`src/api/domains/characters/service.py`).  `count_result` is the scalar
produced by the count query for a given filter; `get_all` and
`get_by_name` are the repository page fetches. -/
def get_all_characters {α β : Type}
    (get_all : Int → Int → List α)
    (get_by_name : String → Int → Int → List α)
    (count_result : Option String → Option Int)
    (serializer : List α → List β)
    (params : PaginationParams)
    (name : Option String) :
    List QueryAction × Except PyExc (PaginatedResponse β) :=
  match name with
  | none =>
    ([QueryAction.countQuery, QueryAction.pageFetch],
     Except.ok (paginate_with_repository get_all (count_result none) params serializer))
  | some nm =>
    let nm := pyStrip nm
    if nm.length = 0 then
      ([], Except.error (PyExc.businessValidation "Name cannot be empty" "name"))
    else if nm.length > 100 then
      ([], Except.error (PyExc.businessValidation "Name cannot exceed 100 characters" "name"))
    else
      ([QueryAction.countQuery, QueryAction.pageFetch],
       Except.ok (paginate_with_repository (get_by_name nm) (count_result (some nm)) params serializer))

/-- `FilmService.get_all_films` (`src/api/domains/films/service.py`);
textually identical to the character service up to naming. -/
def get_all_films {α β : Type}
    (get_all : Int → Int → List α)
    (get_by_title : String → Int → Int → List α)
    (count_result : Option String → Option Int)
    (serializer : List α → List β)
    (params : PaginationParams)
    (title : Option String) :
    List QueryAction × Except PyExc (PaginatedResponse β) :=
  match title with
  | none =>
    ([QueryAction.countQuery, QueryAction.pageFetch],
     Except.ok (paginate_with_repository get_all (count_result none) params serializer))
  | some t =>
    let t := pyStrip t
    if t.length = 0 then
      ([], Except.error (PyExc.businessValidation "Title cannot be empty" "title"))
    else if t.length > 100 then
      ([], Except.error (PyExc.businessValidation "Title cannot exceed 100 characters" "title"))
    else
      ([QueryAction.countQuery, QueryAction.pageFetch],
       Except.ok (paginate_with_repository (get_by_title t) (count_result (some t)) params serializer))

/-- `StarshipService.get_all_starships`
(`src/api/domains/starships/service.py`); textually identical to the
character service up to naming. -/
def get_all_starships {α β : Type}
    (get_all : Int → Int → List α)
    (get_by_name : String → Int → Int → List α)
    (count_result : Option String → Option Int)
    (serializer : List α → List β)
    (params : PaginationParams)
    (name : Option String) :
    List QueryAction × Except PyExc (PaginatedResponse β) :=
  match name with
  | none =>
    ([QueryAction.countQuery, QueryAction.pageFetch],
     Except.ok (paginate_with_repository get_all (count_result none) params serializer))
  | some nm =>
    let nm := pyStrip nm
    if nm.length = 0 then
      ([], Except.error (PyExc.businessValidation "Name cannot be empty" "name"))
    else if nm.length > 100 then
      ([], Except.error (PyExc.businessValidation "Name cannot exceed 100 characters" "name"))
    else
      ([QueryAction.countQuery, QueryAction.pageFetch],
       Except.ok (paginate_with_repository (get_by_name nm) (count_result (some nm)) params serializer))

/-! ## Entity mapper — `src/api/core/populatedb/service.py`, `_map_input_to_model`

Python dictionaries keyed by field name become association lists with
overwriting insertion (`dinsert`); Python values become the small `PyVal`
universe covering everything `model_dump()` produces for the three input
schemas (strings, datetimes, lists of url strings) plus the mapped results
(`None`, parsed dates). -/

/-- A Python `datetime`: an abstract naive part plus an optional timezone
offset. -/
structure PyDateTime where
  naive : Nat
  tz : Option Int
deriving DecidableEq, Repr

/-- Python values flowing through `_map_input_to_model`. -/
inductive PyVal where
  | str : String → PyVal
  | pnone : PyVal
  | pint : Int → PyVal
  | dt : PyDateTime → PyVal
  | pdate : Nat → Nat → Nat → PyVal
  | strList : List String → PyVal
deriving DecidableEq, Repr

/-- Dictionary assignment `d[k] = v`: overwrite in place or append. -/
def dinsert {α : Type} : List (String × α) → String → α → List (String × α)
  | [], k, v => [(k, v)]
  | (k', v') :: rest, k, v =>
    if k' = k then (k, v) :: rest else (k', v') :: dinsert rest k v

/-- Dictionary lookup `d.get(k)`. -/
def dlookup {α : Type} : List (String × α) → String → Option α
  | [], _ => none
  | (k', v') :: rest, k => if k' = k then some v' else dlookup rest k

/-- `PopulateDBService._map_input_to_model`
(`src/api/core/populatedb/service.py`): iterate the dumped input fields,
rename via `field_mappings`, drop fields that are not model columns,
convert the `"unknown"` sentinel to `None` for `nullable_fields`, then
apply the per-field transformer.  Transformers may raise (`strptime`),
hence the `Except`. -/
def map_input_to_model
    (input_dict : List (String × PyVal))
    (model_fields : List String)
    (field_mappings : List (String × String))
    (field_transformers : List (String × (PyVal → Except String PyVal)))
    (nullable_fields : List String) :
    Except String (List (String × PyVal)) :=
  input_dict.foldlM (fun model_data kv => do
    let field_name := kv.1
    let value := kv.2
    let target_field := (dlookup field_mappings field_name).getD field_name
    if target_field ∈ model_fields then
      let value := if field_name ∈ nullable_fields ∧ value = PyVal.str "unknown" then
        PyVal.pnone else value
      let value ← match dlookup field_transformers field_name with
        | some f => f value
        | none => Except.ok value
      Except.ok (dinsert model_data target_field value)
    else
      Except.ok model_data) []

/-- The `created`/`edited` transformer
`lambda dt: dt.replace(tzinfo=None) if dt.tzinfo else dt`. -/
def dropTzTransformer : PyVal → Except String PyVal
  | PyVal.dt d =>
    match d.tz with
    | some _ => Except.ok (PyVal.dt { naive := d.naive, tz := none })
    | none => Except.ok (PyVal.dt d)
  | v => Except.ok v

/-- Split a character list at `'-'` (the list-level counterpart of
`s.split("-")`). -/
def splitDash : List Char → List (List Char)
  | [] => [[]]
  | c :: rest =>
    let r := splitDash rest
    if c = '-' then [] :: r
    else
      match r with
      | [] => [[c]]
      | g :: gs => (c :: g) :: gs

/-- Model of Python's `datetime.strptime(s, "%Y-%m-%d").date()`: three
dash-separated digit groups with month in 1..12 and day in 1..31
(finer calendar validation is not claim-relevant). -/
def parseDateYMD (s : String) : Option (Nat × Nat × Nat) :=
  match splitDash s.data with
  | [ys, ms, ds] =>
    if ys ≠ [] ∧ ys.all Char.isDigit ∧ ms ≠ [] ∧ ms.all Char.isDigit ∧
        ds ≠ [] ∧ ds.all Char.isDigit then
      let y := digitsVal ys
      let m := digitsVal ms
      let d := digitsVal ds
      if 1 ≤ m ∧ m ≤ 12 ∧ 1 ≤ d ∧ d ≤ 31 then some (y, m, d) else none
    else none
  | _ => none

/-- The `release_date` transformer of `_map_film_input_to_model`:
`datetime.strptime(date_str, "%Y-%m-%d").date()`, raising `ValueError` on
a malformed date string. -/
def parseReleaseDateTransformer : PyVal → Except String PyVal
  | PyVal.str s =>
    match parseDateYMD s with
    | some (y, m, d) => Except.ok (PyVal.pdate y m d)
    | none =>
      Except.error ("time data '" ++ s ++ "' does not match format '%Y-%m-%d'")
  | _ => Except.error "strptime() argument 1 must be str"

/-! ### Input schemas — `src/api/core/populatedb/schemas.py` -/

/-- `FilmInputSchema`. -/
structure FilmInput where
  title : String
  episode_id : Int
  opening_crawl : String
  director : String
  producer : String
  release_date : String
  characters : List String
  planets : List String
  starships : List String
  vehicles : List String
  species : List String
  created : PyDateTime
  edited : PyDateTime
  url : String
deriving DecidableEq, Repr

/-- `CharacterInputSchema`. -/
structure CharacterInput where
  name : String
  height : String
  mass : String
  hair_color : String
  skin_color : String
  eye_color : String
  birth_year : String
  gender : String
  homeworld : String
  films : List String
  species : List String
  vehicles : List String
  starships : List String
  created : PyDateTime
  edited : PyDateTime
  url : String
deriving DecidableEq, Repr

/-- `StarshipInputSchema`. -/
structure StarshipInput where
  name : String
  model : String
  manufacturer : String
  cost_in_credits : String
  length : String
  max_atmosphering_speed : String
  crew : String
  passengers : String
  cargo_capacity : String
  consumables : String
  hyperdrive_rating : String
  MGLT : String
  starship_class : String
  pilots : List String
  films : List String
  created : PyDateTime
  edited : PyDateTime
  url : String
deriving DecidableEq, Repr

/-- `film_input.model_dump()` in schema field order. -/
def FilmInput.dump (fi : FilmInput) : List (String × PyVal) :=
  [("title", PyVal.str fi.title), ("episode_id", PyVal.pint fi.episode_id),
   ("opening_crawl", PyVal.str fi.opening_crawl), ("director", PyVal.str fi.director),
   ("producer", PyVal.str fi.producer), ("release_date", PyVal.str fi.release_date),
   ("characters", PyVal.strList fi.characters), ("planets", PyVal.strList fi.planets),
   ("starships", PyVal.strList fi.starships), ("vehicles", PyVal.strList fi.vehicles),
   ("species", PyVal.strList fi.species), ("created", PyVal.dt fi.created),
   ("edited", PyVal.dt fi.edited), ("url", PyVal.str fi.url)]

/-- `character_input.model_dump()` in schema field order. -/
def CharacterInput.dump (ci : CharacterInput) : List (String × PyVal) :=
  [("name", PyVal.str ci.name), ("height", PyVal.str ci.height),
   ("mass", PyVal.str ci.mass), ("hair_color", PyVal.str ci.hair_color),
   ("skin_color", PyVal.str ci.skin_color), ("eye_color", PyVal.str ci.eye_color),
   ("birth_year", PyVal.str ci.birth_year), ("gender", PyVal.str ci.gender),
   ("homeworld", PyVal.str ci.homeworld), ("films", PyVal.strList ci.films),
   ("species", PyVal.strList ci.species), ("vehicles", PyVal.strList ci.vehicles),
   ("starships", PyVal.strList ci.starships), ("created", PyVal.dt ci.created),
   ("edited", PyVal.dt ci.edited), ("url", PyVal.str ci.url)]

/-- `starship_input.model_dump()` in schema field order. -/
def StarshipInput.dump (si : StarshipInput) : List (String × PyVal) :=
  [("name", PyVal.str si.name), ("model", PyVal.str si.model),
   ("manufacturer", PyVal.str si.manufacturer),
   ("cost_in_credits", PyVal.str si.cost_in_credits),
   ("length", PyVal.str si.length),
   ("max_atmosphering_speed", PyVal.str si.max_atmosphering_speed),
   ("crew", PyVal.str si.crew), ("passengers", PyVal.str si.passengers),
   ("cargo_capacity", PyVal.str si.cargo_capacity),
   ("consumables", PyVal.str si.consumables),
   ("hyperdrive_rating", PyVal.str si.hyperdrive_rating),
   ("MGLT", PyVal.str si.MGLT), ("starship_class", PyVal.str si.starship_class),
   ("pilots", PyVal.strList si.pilots), ("films", PyVal.strList si.films),
   ("created", PyVal.dt si.created), ("edited", PyVal.dt si.edited),
   ("url", PyVal.str si.url)]

/-- Column names of `Film.__table__` (`src/api/domains/films/models.py`).
Relationships (`characters`, `starships`) are not columns. -/
def film_model_fields : List String :=
  ["id", "title", "episode_id", "opening_crawl", "director", "producer",
   "release_date", "created", "edited", "url"]

/-- Column names of `Character.__table__`
(`src/api/domains/characters/models.py`). -/
def character_model_fields : List String :=
  ["id", "name", "height", "mass", "hair_color", "skin_color", "eye_color",
   "birth_year", "gender", "created", "edited", "url"]

/-- Column names of `Starship.__table__`
(`src/api/domains/starships/models.py`). -/
def starship_model_fields : List String :=
  ["id", "name", "model", "manufacturer", "cost_in_credits", "length",
   "max_atmosphering_speed", "crew", "passengers", "cargo_capacity",
   "consumables", "hyperdrive_rating", "mglt", "starship_class", "created",
   "edited", "url"]

/-- The `nullable_fields` set passed by `_map_character_input_to_model`. -/
def character_nullable_fields : List String :=
  ["height", "mass", "hair_color", "skin_color", "eye_color", "birth_year",
   "gender"]

/-- `PopulateDBService._map_film_input_to_model`. -/
def map_film_input_to_model (film_input : FilmInput) :
    Except String (List (String × PyVal)) :=
  map_input_to_model film_input.dump film_model_fields []
    [("release_date", parseReleaseDateTransformer),
     ("created", dropTzTransformer), ("edited", dropTzTransformer)]
    []

/-- `PopulateDBService._map_starship_input_to_model`. -/
def map_starship_input_to_model (starship_input : StarshipInput) :
    Except String (List (String × PyVal)) :=
  map_input_to_model starship_input.dump starship_model_fields
    [("MGLT", "mglt")]
    [("created", dropTzTransformer), ("edited", dropTzTransformer)]
    []

/-- `PopulateDBService._map_character_input_to_model`. -/
def map_character_input_to_model (character_input : CharacterInput) :
    Except String (List (String × PyVal)) :=
  map_input_to_model character_input.dump character_model_fields []
    [("created", dropTzTransformer), ("edited", dropTzTransformer)]
    character_nullable_fields

/-! ## Populate pipeline — `src/api/core/populatedb/service.py`

Entity objects carry the mapper's column dictionary, the assigned primary
key, and their many-to-many collections.  SQLAlchemy objects are identified
by their source url (each `films`/`characters`/`starships` dictionary holds
one object per url), so association collections store linked urls. -/

/-- A staged `Film` ORM object: mapped columns, extracted id, and the
`characters`/`starships` collections (urls of linked objects).  `url`
repeats the (unchanged) `url` entry of `fields`, as the attribute the
source reads back for `extract_id_from_url`. -/
structure FilmModel where
  fields : List (String × PyVal)
  id : Nat
  url : String
  characters : List String
  starships : List String
deriving DecidableEq, Repr

/-- A staged `Character` ORM object. -/
structure CharacterModel where
  fields : List (String × PyVal)
  id : Nat
  url : String
  starships : List String
deriving DecidableEq, Repr

/-- A staged `Starship` ORM object. -/
structure StarshipModel where
  fields : List (String × PyVal)
  id : Nat
  url : String
deriving DecidableEq, Repr

/-- `film_model.id = extract_id_from_url(film_model.url)`; a failed match
raises `ValueError` with the message of `url_helpers.py`. -/
def extract_id_or_raise (url : String) : Except String Nat :=
  match extract_id_from_url url with
  | some n => Except.ok n
  | none => Except.error ("Could not extract ID from URL: " ++ url)

/-- Map-phase loop over `films_data`: map each record, extract its id,
store it in the by-url dictionary (`films[film_data.url] = film_model`).
The mapper copies `url` through unchanged, so the object's `url` attribute
is `film_data.url`. -/
def build_films (films_data : List FilmInput) :
    Except String (List (String × FilmModel)) :=
  films_data.foldlM (fun films film_data => do
    let fields ← map_film_input_to_model film_data
    let id ← extract_id_or_raise film_data.url
    Except.ok (dinsert films film_data.url
      { fields := fields, id := id, url := film_data.url,
        characters := [], starships := [] })) []

/-- Map-phase loop over `people_data`. -/
def build_characters (people_data : List CharacterInput) :
    Except String (List (String × CharacterModel)) :=
  people_data.foldlM (fun characters char_data => do
    let fields ← map_character_input_to_model char_data
    let id ← extract_id_or_raise char_data.url
    Except.ok (dinsert characters char_data.url
      { fields := fields, id := id, url := char_data.url, starships := [] })) []

/-- Map-phase loop over `starships_data`. -/
def build_starships (starships_data : List StarshipInput) :
    Except String (List (String × StarshipModel)) :=
  starships_data.foldlM (fun starships ship_data => do
    let fields ← map_starship_input_to_model ship_data
    let id ← extract_id_or_raise ship_data.url
    Except.ok (dinsert starships ship_data.url
      { fields := fields, id := id, url := ship_data.url }) ) []

/-- Link-phase loop over `films_data`: for each film record, append every
character url resolving in `characters` to the film's `characters`
collection, then every starship url resolving in `starships` to its
`starships` collection; unresolved urls are skipped.  The dictionary entry
for `film_data.url` always exists, since `films` was built over the same
list. -/
def link_films
    (films : List (String × FilmModel))
    (characters : List (String × CharacterModel))
    (starships : List (String × StarshipModel))
    (films_data : List FilmInput) : List (String × FilmModel) :=
  films_data.foldl (fun films film_data =>
    match dlookup films film_data.url with
    | none => films
    | some film =>
      let film := { film with
        characters := film.characters ++
          film_data.characters.filter (fun char_url => (dlookup characters char_url).isSome) }
      let film := { film with
        starships := film.starships ++
          film_data.starships.filter (fun ship_url => (dlookup starships ship_url).isSome) }
      dinsert films film_data.url film) films

/-- Link-phase loop over `people_data`: for each character record, append
every resolving starship url that is not already in the character's
`starships` collection (`if starship and starship not in
character.starships`). -/
def link_characters
    (characters : List (String × CharacterModel))
    (starships : List (String × StarshipModel))
    (people_data : List CharacterInput) : List (String × CharacterModel) :=
  people_data.foldl (fun characters char_data =>
    match dlookup characters char_data.url with
    | none => characters
    | some character =>
      let character := char_data.starships.foldl (fun character ship_url =>
        if (dlookup starships ship_url).isSome ∧ ship_url ∉ character.starships then
          { character with starships := character.starships ++ [ship_url] }
        else character) character
      dinsert characters char_data.url character) characters

/-- The unit of work staged by `_populate_with_associations` before the
commit: the three by-url dictionaries after the map, stage and link
phases. -/
structure StagedData where
  films : List (String × FilmModel)
  characters : List (String × CharacterModel)
  starships : List (String × StarshipModel)
deriving DecidableEq, Repr

/-- Map + stage + link phases of `_populate_with_associations`, up to (not
including) the commit.  A `ValueError` escaping `extract_id_from_url` or
`strptime` aborts the sequence at that point. -/
def build_staged
    (films_data : List FilmInput)
    (people_data : List CharacterInput)
    (starships_data : List StarshipInput) : Except String StagedData := do
  let films ← build_films films_data
  let characters ← build_characters people_data
  let starships ← build_starships starships_data
  let films := link_films films characters starships films_data
  let characters := link_characters characters starships people_data
  Except.ok { films := films, characters := characters, starships := starships }

/-- The rows durably committed in the database. -/
structure DbState where
  films : List FilmModel
  characters : List CharacterModel
  starships : List StarshipModel
deriving DecidableEq, Repr

/-- `PopulateDBService._populate_with_associations`
(`src/api/core/populatedb/service.py`).  `commit_fault` injects the
`SQLAlchemyError` (its message) that `self.db.commit()` may raise: on
fault the transaction is rolled back — the database keeps exactly its
previous rows — and `DatabaseException` is raised with the underlying
cause; otherwise every staged entity together with its association
collections becomes durable in one step. -/
def populate_with_associations
    (commit_fault : Option String)
    (films_data : List FilmInput)
    (people_data : List CharacterInput)
    (starships_data : List StarshipInput)
    (db : DbState) : DbState × Except PyExc Unit :=
  match build_staged films_data people_data starships_data with
  | Except.error msg => (db, Except.error (PyExc.valueError msg))
  | Except.ok staged =>
    match commit_fault with
    | some m =>
      (db, Except.error (PyExc.database ("Failed to commit database transaction: " ++ m)))
    | none =>
      ({ films := db.films ++ staged.films.map Prod.snd
         characters := db.characters ++ staged.characters.map Prod.snd
         starships := db.starships ++ staged.starships.map Prod.snd },
       Except.ok ())

/-! ## Ingestion fetcher — `src/api/core/populatedb/service.py`, `_parse_swapi_data` -/

/-- The observable outcome of `session.get(url)` + body read: either a
response with a status and a body whose JSON decode either fails
(`orjson.JSONDecodeError` message) or yields a list of raw records, or an
`aiohttp.ClientError` raised in transit. -/
inductive RawFetch (ρ : Type) where
  | response (status : Nat) (body : Except String (List ρ))
  | clientError (message : String)

/-- `InputValidationException.__init__` (`src/api/core/exceptions.py`):
package the per-field errors of a pydantic `ValidationError`. -/
def input_validation_exception (errs : List FieldError) : PyExc :=
  PyExc.inputValidation errs

/-- `[schema_class(**item) for item in raw_data]`: validate records in
order; the first `ValidationError` aborts the whole comprehension and is
wrapped by `InputValidationException`. -/
def validate_all {ρ τ : Type} (validate : ρ → Except (List FieldError) τ) :
    List ρ → Except PyExc (List τ)
  | [] => Except.ok []
  | item :: rest =>
    match validate item with
    | Except.error errs => Except.error (input_validation_exception errs)
    | Except.ok v =>
      match validate_all validate rest with
      | Except.error e => Except.error e
      | Except.ok vs => Except.ok (v :: vs)

/-- `PopulateDBService._parse_swapi_data`.  On a non-200 status,
`response.raise_for_status()` raises `aiohttp.ClientResponseError` (an
`aiohttp.ClientError` whose text carries the status), caught by the
`ClientError` handler; `toString status` stands for `str(e)` of that
error. -/
def parse_swapi_data {ρ τ : Type} (path : String) (fetch : RawFetch ρ)
    (validate : ρ → Except (List FieldError) τ) : Except PyExc (List τ) :=
  match fetch with
  | RawFetch.clientError msg =>
    Except.error (PyExc.externalService
      ("Failed to fetch " ++ path ++ " from SWAPI: " ++ msg))
  | RawFetch.response status body =>
    if status = 200 then
      match body with
      | Except.error jmsg =>
        Except.error (PyExc.externalService
          ("Invalid JSON response from SWAPI " ++ path ++ ": " ++ jmsg))
      | Except.ok raw_data => validate_all validate raw_data
    else
      Except.error (PyExc.externalService
        ("Failed to fetch " ++ path ++ " from SWAPI: " ++ toString status))

/-! ## Populate wrapper — `src/api/core/populatedb/service.py`, `populatedb_wrapper` -/

/-- The two `except` clauses of `populatedb_wrapper`:
`InputValidationException`, `ExternalServiceException` and
`DatabaseException` are re-raised unchanged; anything else is wrapped into
`InternalServerException` with the original cause in `details`.  Both
clauses roll the session back first. -/
def wrap_populate_error (e : PyExc) : PyExc :=
  match e with
  | PyExc.inputValidation _ => e
  | PyExc.externalService _ => e
  | PyExc.database _ => e
  | e =>
    PyExc.internal "An unexpected error occurred during database population"
      [("error", e.str)]

/-- `PopulateDBService.populatedb_wrapper`.  The three concurrent fetches
are joined before the map phase starts; a failure of any fetch aborts the
operation (the first failing fetch in films/people/starships order is
reported).  Both `except` clauses roll back, leaving the committed rows
unchanged. -/
def populatedb_wrapper {ρ₁ ρ₂ ρ₃ : Type}
    (films_fetch : RawFetch ρ₁) (people_fetch : RawFetch ρ₂)
    (ships_fetch : RawFetch ρ₃)
    (validate_film : ρ₁ → Except (List FieldError) FilmInput)
    (validate_person : ρ₂ → Except (List FieldError) CharacterInput)
    (validate_ship : ρ₃ → Except (List FieldError) StarshipInput)
    (commit_fault : Option String)
    (db : DbState) : DbState × Except PyExc PopulateDBResponse :=
  let gathered := do
    let films_data ← parse_swapi_data "films" films_fetch validate_film
    let people_data ← parse_swapi_data "people" people_fetch validate_person
    let starships_data ← parse_swapi_data "starships" ships_fetch validate_ship
    Except.ok (films_data, people_data, starships_data)
  match gathered with
  | Except.error e => (db, Except.error (wrap_populate_error e))
  | Except.ok (films_data, people_data, starships_data) =>
    match populate_with_associations commit_fault films_data people_data starships_data db with
    | (db', Except.ok ()) => (db', Except.ok {})
    | (db', Except.error e) => (db', Except.error (wrap_populate_error e))

/-! ### Concrete populate scenario (spec §8, Scenario A): one film
referencing one character url and one starship url, plus the matching
character and starship records. -/

/-- Scenario A film record. -/
def scenario_film : FilmInput :=
  { title := "A New Hope", episode_id := 4,
    opening_crawl := "It is a period of civil war.",
    director := "George Lucas", producer := "Gary Kurtz, Rick McCallum",
    release_date := "1977-05-25",
    characters := ["https://swapi.dev/api/people/1/"],
    planets := [],
    starships := ["https://swapi.dev/api/starships/12/"],
    vehicles := [], species := [],
    created := { naive := 0, tz := none },
    edited := { naive := 0, tz := none },
    url := "https://swapi.dev/api/films/1/" }

/-- Scenario A character record. -/
def scenario_character : CharacterInput :=
  { name := "Luke Skywalker", height := "172", mass := "77",
    hair_color := "blond", skin_color := "fair", eye_color := "blue",
    birth_year := "19BBY", gender := "male",
    homeworld := "https://swapi.dev/api/planets/1/",
    films := ["https://swapi.dev/api/films/1/"],
    species := [], vehicles := [],
    starships := ["https://swapi.dev/api/starships/12/"],
    created := { naive := 0, tz := none },
    edited := { naive := 0, tz := none },
    url := "https://swapi.dev/api/people/1/" }

/-- Scenario A starship record. -/
def scenario_starship : StarshipInput :=
  { name := "X-wing", model := "T-65 X-wing",
    manufacturer := "Incom Corporation", cost_in_credits := "149999",
    length := "12.5", max_atmosphering_speed := "1050", crew := "1",
    passengers := "0", cargo_capacity := "110", consumables := "1 week",
    hyperdrive_rating := "1.0", MGLT := "100",
    starship_class := "Starfighter",
    pilots := ["https://swapi.dev/api/people/1/"],
    films := ["https://swapi.dev/api/films/1/"],
    created := { naive := 0, tz := none },
    edited := { naive := 0, tz := none },
    url := "https://swapi.dev/api/starships/12/" }

/-! ### Lemmas about the URL-ID extractor -/

theorem takeWhile_append_of_all {α : Type} (p : α → Bool) (l1 l2 : List α)
    (h : ∀ c ∈ l1, p c) :
    (l1 ++ l2).takeWhile p = l1 ++ l2.takeWhile p := by
  induction l1 with
  | nil => simp
  | cons a l ih =>
    have ha : p a := h a (List.mem_cons_self a l)
    simp [List.takeWhile_cons, ha]
    exact ih fun c hc => h c (List.mem_cons_of_mem a hc)

theorem dropWhile_append_of_all {α : Type} (p : α → Bool) (l1 l2 : List α)
    (h : ∀ c ∈ l1, p c) :
    (l1 ++ l2).dropWhile p = l2.dropWhile p := by
  induction l1 with
  | nil => simp
  | cons a l ih =>
    have ha : p a := h a (List.mem_cons_self a l)
    simp [List.dropWhile_cons, ha]
    exact ih fun c hc => h c (List.mem_cons_of_mem a hc)

theorem dropTrailingSlash_cases (l : List Char) :
    (dropTrailingSlash l = l ∧ l.head? ≠ some '/') ∨ l = '/' :: dropTrailingSlash l := by
  cases l with
  | nil => exact Or.inl ⟨rfl, by simp⟩
  | cons c rest =>
    by_cases hc : c = '/'
    · subst hc
      exact Or.inr (by simp [dropTrailingSlash])
    · exact Or.inl ⟨by simp [dropTrailingSlash, hc], by simp [hc]⟩

theorem dropTrailingSlash_of_head_ne (c : Char) (rest : List Char) (h : c ≠ '/') :
    dropTrailingSlash (c :: rest) = c :: rest := by
  simp [dropTrailingSlash, h]

theorem dropTrailingSlash_slash (rest : List Char) :
    dropTrailingSlash ('/' :: rest) = rest := by
  simp [dropTrailingSlash]

theorem digit_ne_slash {c : Char} (h : c.isDigit = true) : c ≠ '/' := by
  intro hc
  subst hc
  simp [Char.isDigit] at h

/-- Evaluation of the regex core on a reversed list that is exactly a digit
run followed by `'/'` and arbitrary leading material. -/
theorem extractIdCore_digits (ds tl : List Char) (hne : ds ≠ [])
    (hd : ∀ c ∈ ds, c.isDigit = true) :
    extractIdCore (ds ++ '/' :: tl) = some (digitsVal ds.reverse) := by
  cases ds with
  | nil => exact absurd rfl hne
  | cons d ds' =>
    have hd0 : d.isDigit = true := hd d (List.mem_cons_self d ds')
    have hslash : ('/' : Char).isDigit = false := by decide
    have hdrop : dropTrailingSlash (d :: (ds' ++ '/' :: tl)) = d :: (ds' ++ '/' :: tl) :=
      dropTrailingSlash_of_head_ne d (ds' ++ '/' :: tl) (digit_ne_slash hd0)
    have htake : List.takeWhile Char.isDigit (d :: (ds' ++ '/' :: tl)) = d :: ds' := by
      have h2 := takeWhile_append_of_all Char.isDigit (d :: ds') ('/' :: tl) hd
      simpa [List.takeWhile_cons, hslash] using h2
    have hdropw : List.dropWhile Char.isDigit (d :: (ds' ++ '/' :: tl)) = '/' :: tl := by
      have h2 := dropWhile_append_of_all Char.isDigit (d :: ds') ('/' :: tl) hd
      simpa [List.dropWhile_cons, hslash] using h2
    show extractIdCore (d :: (ds' ++ '/' :: tl)) = some (digitsVal (d :: ds').reverse)
    simp only [extractIdCore]
    rw [hdrop, htake, hdropw]
    simp

/-- Variant of `extractIdCore_digits` for the reversed lists that carry the
single trailing slash allowed by `/?$`. -/
theorem extractIdCore_slash_digits (ds tl : List Char) (hne : ds ≠ [])
    (hd : ∀ c ∈ ds, c.isDigit = true) :
    extractIdCore ('/' :: (ds ++ '/' :: tl)) = some (digitsVal ds.reverse) := by
  cases ds with
  | nil => exact absurd rfl hne
  | cons d ds' =>
    have hd0 : d.isDigit = true := hd d (List.mem_cons_self d ds')
    have hslash : ('/' : Char).isDigit = false := by decide
    have htake : List.takeWhile Char.isDigit (d :: (ds' ++ '/' :: tl)) = d :: ds' := by
      have h2 := takeWhile_append_of_all Char.isDigit (d :: ds') ('/' :: tl) hd
      simpa [List.takeWhile_cons, hslash] using h2
    have hdropw : List.dropWhile Char.isDigit (d :: (ds' ++ '/' :: tl)) = '/' :: tl := by
      have h2 := dropWhile_append_of_all Char.isDigit (d :: ds') ('/' :: tl) hd
      simpa [List.dropWhile_cons, hslash] using h2
    show extractIdCore ('/' :: (d :: (ds' ++ '/' :: tl))) = some (digitsVal (d :: ds').reverse)
    simp only [extractIdCore]
    rw [dropTrailingSlash_slash, htake, hdropw]
    simp

/-- Characterization of `extract_id_from_url`: it succeeds exactly on
strings that end in `'/'`, a non-empty digit run, and at most one extra
trailing `'/'`, and then returns the decimal value of that final digit
run. -/
theorem extract_id_some_iff (url : String) (n : Nat) :
    extract_id_from_url url = some n ↔
      ∃ p ds, ds ≠ [] ∧ (∀ c ∈ ds, c.isDigit = true) ∧
        (url.data = p ++ '/' :: ds ∨ url.data = p ++ '/' :: ds ++ ['/']) ∧
        n = digitsVal ds := by
  constructor
  · intro h
    unfold extract_id_from_url extractIdCore at h
    set rcs := url.data.reverse with hrcs
    set r := dropTrailingSlash rcs with hr
    rcases hds : r.takeWhile Char.isDigit with _ | ⟨d, ds'⟩
    · simp [hds] at h
    · rcases hrest : r.dropWhile Char.isDigit with _ | ⟨c, tl⟩
      · simp only [hds, hrest] at h
        exact Option.noConfusion h
      · by_cases hc : c = '/'
        · subst hc
          simp only [hds, hrest] at h
          rw [if_pos trivial] at h
          rw [Option.some.injEq] at h
          have hsplit : r = (d :: ds') ++ '/' :: tl := by
            rw [← hds, ← hrest, List.takeWhile_append_dropWhile]
          have hdig : ∀ x ∈ (d :: ds'), x.isDigit = true := by
            intro x hx
            exact List.mem_takeWhile_imp (hds ▸ hx)
          have hdata : url.data = rcs.reverse := by
            rw [hrcs, List.reverse_reverse]
          have hdigrev : ∀ x ∈ (d :: ds').reverse, x.isDigit = true := by
            intro x hx
            exact hdig x (List.mem_reverse.mp hx)
          rcases dropTrailingSlash_cases rcs with ⟨heq, _⟩ | heq
          · refine ⟨tl.reverse, (d :: ds').reverse, by simp, hdigrev, Or.inl ?_, ?_⟩
            · rw [hdata, ← heq, ← hr, hsplit]
              simp
            · rw [← h]
          · refine ⟨tl.reverse, (d :: ds').reverse, by simp, hdigrev, Or.inr ?_, ?_⟩
            · rw [hdata, heq, ← hr, hsplit]
              simp
            · rw [← h]
        · simp only [hds, hrest] at h
          rw [if_neg hc] at h
          exact Option.noConfusion h
  · rintro ⟨p, ds, hne, hd, hform | hform, hn⟩
    · have : url.data.reverse = ds.reverse ++ '/' :: p.reverse := by
        rw [hform]; simp
      unfold extract_id_from_url
      rw [this, extractIdCore_digits ds.reverse p.reverse (by simpa using hne)
        (fun c hc => hd c (List.mem_reverse.mp hc))]
      rw [List.reverse_reverse, hn]
    · have hrev : url.data.reverse = '/' :: (ds.reverse ++ '/' :: p.reverse) := by
        rw [hform]; simp
      unfold extract_id_from_url
      rw [hrev, extractIdCore_slash_digits ds.reverse p.reverse (by simpa using hne)
        (fun c hc => hd c (List.mem_reverse.mp hc))]
      rw [List.reverse_reverse, hn]

/-! ### Claim theorems: URL-ID extractor -/

/-- C3: for every string url that ends with `'/'` followed by a digit
sequence N, optionally followed by exactly one trailing slash,
`extract_id_from_url url` returns the integer N (matching only the last
path segment — the digit run reaches the end of the string); for every
string without such a trailing numeric segment the extraction fails
(returns `none`, the embedded `ValueError`). -/
theorem extract_id_from_url_correct (url : String) :
    (∀ p ds, ds ≠ [] → (∀ c ∈ ds, c.isDigit = true) →
      (url.data = p ++ '/' :: ds ∨ url.data = p ++ '/' :: ds ++ ['/']) →
      extract_id_from_url url = some (digitsVal ds)) ∧
    ((¬ ∃ p ds, ds ≠ [] ∧ (∀ c ∈ ds, c.isDigit = true) ∧
      (url.data = p ++ '/' :: ds ∨ url.data = p ++ '/' :: ds ++ ['/'])) →
      extract_id_from_url url = none) := by
  constructor
  · intro p ds hne hd hform
    exact (extract_id_some_iff url (digitsVal ds)).mpr ⟨p, ds, hne, hd, hform, rfl⟩
  · intro hno
    cases hx : extract_id_from_url url with
    | none => rfl
    | some n =>
      rcases (extract_id_some_iff url n).mp hx with ⟨p, ds, hne, hd, hform, _⟩
      exact absurd ⟨p, ds, hne, hd, hform⟩ hno

/-- Witness for C3 at `.../people/42/`. -/
theorem extract_id_from_url_correct_witness :
    extract_id_from_url "https://swapi.dev/api/people/42/" = some 42 := by
  have h := (extract_id_from_url_correct "https://swapi.dev/api/people/42/").1
    ("https://swapi.dev/api/people".data) ['4', '2'] (by decide) (by decide)
    (Or.inr (by decide))
  have h42 : digitsVal ['4', '2'] = 42 := by decide
  rw [h42] at h
  exact h

/-- C10: `extract_id_from_url` requires a `'/'` immediately before the
trailing digit run; an input consisting solely of digits (no slash at
all, e.g. `"42"`) fails even though the whole string is a trailing
numeric segment. -/
theorem extract_id_requires_slash (url : String)
    (h : ∀ c ∈ url.data, c.isDigit = true) :
    extract_id_from_url url = none := by
  cases hx : extract_id_from_url url with
  | none => rfl
  | some n =>
    rcases (extract_id_some_iff url n).mp hx with ⟨p, ds, _, _, hform, _⟩
    have hs : '/' ∈ url.data := by
      rcases hform with hf | hf <;> simp [hf]
    exact absurd (h '/' hs) (by decide)

/-- Witness for C10 at `"42"`. -/
theorem extract_id_requires_slash_witness :
    (∀ c ∈ ("42" : String).data, c.isDigit = true) ∧
      extract_id_from_url "42" = none :=
  ⟨by decide, extract_id_requires_slash "42" (by decide)⟩

/-! ### Claim theorems: pagination -/

/-- C2: for every pagination call with count scalar giving total T,
offset O ≥ 0 and limit 1 ≤ L ≤ 100, the returned metadata has
`has_next = (O + L < T)`, `has_previous = (O > 0)`,
`next_offset = O + L` exactly when `has_next` (else absent),
`previous_offset = max 0 (O - L)` exactly when `has_previous` (else
absent), `previous_offset` is never negative, and an absent/null count
result is treated as `T = 0`. -/
theorem paginate_with_repository_meta {α β : Type}
    (get_all : Int → Int → List α) (serializer : List α → List β)
    (count_result : Option Int) (params : PaginationParams)
    (hO : 0 ≤ params.offset) (hL1 : 1 ≤ params.limit)
    (hL2 : params.limit ≤ 100) :
    (paginate_with_repository get_all count_result params serializer).meta.total =
        count_result.getD 0 ∧
    (paginate_with_repository get_all count_result params serializer).meta.has_next =
        decide (params.offset + params.limit < count_result.getD 0) ∧
    (paginate_with_repository get_all count_result params serializer).meta.has_previous =
        decide (params.offset > 0) ∧
    (paginate_with_repository get_all count_result params serializer).meta.next_offset =
        (if params.offset + params.limit < count_result.getD 0 then
          some (params.offset + params.limit) else none) ∧
    (paginate_with_repository get_all count_result params serializer).meta.previous_offset =
        (if params.offset > 0 then some (max 0 (params.offset - params.limit))
         else none) ∧
    (∀ q, (paginate_with_repository get_all count_result params
        serializer).meta.previous_offset = some q → 0 ≤ q) ∧
    (count_result = none →
      (paginate_with_repository get_all count_result params serializer).meta.total = 0) := by
  have htot : (match count_result with
      | none => (0 : Int)
      | some t => if t = 0 then 0 else t) = count_result.getD 0 := by
    cases count_result with
    | none => rfl
    | some t =>
      by_cases ht : t = 0
      · simp [ht]
      · simp [ht]
  refine ⟨?_, ?_, ?_, ?_, ?_, ?_, ?_⟩
  · simp only [paginate_with_repository, htot]
  · simp only [paginate_with_repository, htot]
  · simp only [paginate_with_repository]
  · simp only [paginate_with_repository, htot]
    by_cases hc : params.offset + params.limit < count_result.getD 0
    · rw [if_pos (by simpa using hc), if_pos hc]
    · rw [if_neg (by simpa using hc), if_neg hc]
  · simp only [paginate_with_repository]
    by_cases hp : params.offset > 0
    · rw [if_pos (by simpa using hp), if_pos hp]
    · rw [if_neg (by simpa using hp), if_neg hp]
  · intro q hq
    simp only [paginate_with_repository] at hq
    by_cases hp : params.offset > 0
    · rw [if_pos (by simpa using hp)] at hq
      have : q = max 0 (params.offset - params.limit) := by
        simpa using hq.symm
      rw [this]
      exact le_max_left 0 _
    · rw [if_neg (by simpa using hp)] at hq
      exact absurd hq (by simp)
  · intro hc
    subst hc
    simp only [paginate_with_repository]

/-- Witness for C2, the spec's Scenario C shape: offset 20, limit 10,
total 25. -/
theorem paginate_with_repository_meta_witness :
    ((0 : Int) ≤ 20 ∧ (1 : Int) ≤ 10 ∧ (10 : Int) ≤ 100) ∧
    (paginate_with_repository (fun _ _ => ([] : List Nat)) (some 25)
        { offset := 20, limit := 10 } (fun l => l)).meta.has_next =
      decide ((20 : Int) + 10 < (some (25 : Int)).getD 0) ∧
    (paginate_with_repository (fun _ _ => ([] : List Nat)) (some 25)
        { offset := 20, limit := 10 } (fun l => l)).meta.previous_offset =
      (if (20 : Int) > 0 then some (max 0 ((20 : Int) - 10)) else none) := by
  have h := paginate_with_repository_meta (fun _ _ => ([] : List Nat))
    (fun l : List Nat => l) (some 25) { offset := 20, limit := 10 }
    (by decide) (by decide) (by decide)
  exact ⟨⟨by decide, by decide, by decide⟩, h.2.1, h.2.2.2.2.1⟩

/-! ### Claim theorems: opening crawl views -/

/-- C9: for every non-null `opening_crawl` string the nested/relation view
first applies the whitespace normalization `cleanCrawlText` and then, if
the normalized text exceeds 100 characters, returns its first 100
characters followed by `"..."`, otherwise the normalized text unchanged;
the standalone view applies exactly the same normalization and never
truncates, so whenever the normalized text fits in 100 characters the two
views agree. -/
theorem opening_crawl_views (s : String) :
    truncate_opening_crawl (some s) =
      some (if (cleanCrawlText s).length > 100
            then (cleanCrawlText s).take 100 ++ "..."
            else cleanCrawlText s) ∧
    clean_opening_crawl (some s) = some (cleanCrawlText s) ∧
    ((cleanCrawlText s).length ≤ 100 →
      truncate_opening_crawl (some s) = clean_opening_crawl (some s)) ∧
    truncate_opening_crawl none = none ∧
    clean_opening_crawl none = none := by
  refine ⟨?_, rfl, ?_, rfl, rfl⟩
  · simp only [truncate_opening_crawl]
    by_cases hc : (cleanCrawlText s).length > 100
    · rw [if_pos hc, if_pos hc]
    · rw [if_neg hc, if_neg hc]
  · intro hle
    have hc : ¬ (cleanCrawlText s).length > 100 := by omega
    simp only [truncate_opening_crawl, clean_opening_crawl]
    rw [if_neg hc]
    rfl

/-- Witness for C9 at a short two-line crawl. -/
theorem opening_crawl_views_witness :
    truncate_opening_crawl (some "It is a period of\r\ncivil war.") =
      some (if (cleanCrawlText "It is a period of\r\ncivil war.").length > 100
            then (cleanCrawlText "It is a period of\r\ncivil war.").take 100 ++ "..."
            else cleanCrawlText "It is a period of\r\ncivil war.") ∧
    clean_opening_crawl (some "It is a period of\r\ncivil war.") =
      some (cleanCrawlText "It is a period of\r\ncivil war.") :=
  ⟨(opening_crawl_views "It is a period of\r\ncivil war.").1,
   (opening_crawl_views "It is a period of\r\ncivil war.").2.1⟩

/-! ### Claim theorems: listing filter validation -/

/-- C5: on every Character/Film/Starship listing call whose filter string
is empty or whitespace-only after trimming, or longer than 100 characters
after trimming, the domain service fails with the (spec-modelled, HTTP
400) business-validation error before any count or page query executes —
the executed-query trace is empty. -/
theorem listing_filter_validation {α β : Type}
    (get_all : Int → Int → List α) (get_by : String → Int → Int → List α)
    (count_result : Option String → Option Int) (serializer : List α → List β)
    (params : PaginationParams) (s : String) :
    (pyStrip s = "" →
      get_all_characters get_all get_by count_result serializer params (some s) =
        ([], Except.error (PyExc.businessValidation "Name cannot be empty" "name")) ∧
      get_all_films get_all get_by count_result serializer params (some s) =
        ([], Except.error (PyExc.businessValidation "Title cannot be empty" "title")) ∧
      get_all_starships get_all get_by count_result serializer params (some s) =
        ([], Except.error (PyExc.businessValidation "Name cannot be empty" "name"))) ∧
    ((pyStrip s).length > 100 →
      get_all_characters get_all get_by count_result serializer params (some s) =
        ([], Except.error
          (PyExc.businessValidation "Name cannot exceed 100 characters" "name")) ∧
      get_all_films get_all get_by count_result serializer params (some s) =
        ([], Except.error
          (PyExc.businessValidation "Title cannot exceed 100 characters" "title")) ∧
      get_all_starships get_all get_by count_result serializer params (some s) =
        ([], Except.error
          (PyExc.businessValidation "Name cannot exceed 100 characters" "name"))) ∧
    (∀ m f, (PyExc.businessValidation m f).status_code = some 400) := by
  refine ⟨?_, ?_, fun m f => rfl⟩
  · intro h
    have h0 : (pyStrip s).length = 0 := by rw [h]; rfl
    refine ⟨?_, ?_, ?_⟩ <;>
      simp [get_all_characters, get_all_films, get_all_starships, h0]
  · intro h
    have h1 : ¬ (pyStrip s).length = 0 := by omega
    refine ⟨?_, ?_, ?_⟩ <;>
      simp [get_all_characters, get_all_films, get_all_starships, h1, h]

/-- Witness for C5, the spec's Scenario D shape: a whitespace-only filter
on the character listing. -/
theorem listing_filter_validation_witness :
    get_all_characters (fun _ _ => ([] : List Nat)) (fun _ _ _ => [])
        (fun _ => none) (fun l => l) { offset := 0, limit := 10 }
        (some "   ") =
      ([], Except.error (PyExc.businessValidation "Name cannot be empty" "name")) :=
  ((listing_filter_validation (fun _ _ => ([] : List Nat)) (fun _ _ _ => [])
    (fun _ => none) (fun l => l) { offset := 0, limit := 10 } "   ").1
    (by decide)).1

/-! ### Lemmas and claim theorem: entity mapper -/

/-- Closed form of `_map_character_input_to_model`: the seven physical
attributes get the `"unknown" → None` conversion, every other copied
column keeps its value, non-column input fields are dropped, and the
timezone (if any) is stripped from `created`/`edited`. -/
theorem map_character_input_to_model_eq (ci : CharacterInput) :
    map_character_input_to_model ci = Except.ok
      [("name", PyVal.str ci.name),
       ("height", if ci.height = "unknown" then PyVal.pnone else PyVal.str ci.height),
       ("mass", if ci.mass = "unknown" then PyVal.pnone else PyVal.str ci.mass),
       ("hair_color", if ci.hair_color = "unknown" then PyVal.pnone
        else PyVal.str ci.hair_color),
       ("skin_color", if ci.skin_color = "unknown" then PyVal.pnone
        else PyVal.str ci.skin_color),
       ("eye_color", if ci.eye_color = "unknown" then PyVal.pnone
        else PyVal.str ci.eye_color),
       ("birth_year", if ci.birth_year = "unknown" then PyVal.pnone
        else PyVal.str ci.birth_year),
       ("gender", if ci.gender = "unknown" then PyVal.pnone
        else PyVal.str ci.gender),
       ("created", PyVal.dt { naive := ci.created.naive, tz := none }),
       ("edited", PyVal.dt { naive := ci.edited.naive, tz := none }),
       ("url", PyVal.str ci.url)] := by
  obtain ⟨name, height, mass, hairc, skinc, eyec, birth, gender, home, films,
    species, vehicles, ships, ⟨cn, ct⟩, ⟨en, et⟩, url⟩ := ci
  cases ct <;> cases et <;>
    simp [map_character_input_to_model, map_input_to_model,
      CharacterInput.dump, character_model_fields, character_nullable_fields,
      dinsert, dlookup, dropTzTransformer, List.foldlM, Except.instMonad,
      Except.bind, Except.pure]

/-- C7: for every record mapped with a `nullable_fields` set, a field in
the set whose value is the literal `"unknown"` maps to `None`, a field in
the set with any other value maps to that value unchanged, and a field
outside the set keeps the literal `"unknown"` (shown generically on a
one-field record, and on the full Character mapper, whose nullable set is
exactly the seven physical attributes — e.g. `name` keeps `"unknown"`
while the seven get the conversion). -/
theorem nullable_field_mapping (ci : CharacterInput) :
    (∀ (fields nullable : List String) (fn v : String),
      fn ∈ fields →
      map_input_to_model [(fn, PyVal.str v)] fields [] [] nullable =
        Except.ok [(fn, if fn ∈ nullable ∧ v = "unknown" then PyVal.pnone
                        else PyVal.str v)]) ∧
    character_nullable_fields =
      ["height", "mass", "hair_color", "skin_color", "eye_color",
       "birth_year", "gender"] ∧
    (∃ m, map_character_input_to_model ci = Except.ok m ∧
      dlookup m "height" =
        some (if ci.height = "unknown" then PyVal.pnone else PyVal.str ci.height) ∧
      dlookup m "mass" =
        some (if ci.mass = "unknown" then PyVal.pnone else PyVal.str ci.mass) ∧
      dlookup m "hair_color" =
        some (if ci.hair_color = "unknown" then PyVal.pnone
              else PyVal.str ci.hair_color) ∧
      dlookup m "skin_color" =
        some (if ci.skin_color = "unknown" then PyVal.pnone
              else PyVal.str ci.skin_color) ∧
      dlookup m "eye_color" =
        some (if ci.eye_color = "unknown" then PyVal.pnone
              else PyVal.str ci.eye_color) ∧
      dlookup m "birth_year" =
        some (if ci.birth_year = "unknown" then PyVal.pnone
              else PyVal.str ci.birth_year) ∧
      dlookup m "gender" =
        some (if ci.gender = "unknown" then PyVal.pnone
              else PyVal.str ci.gender) ∧
      dlookup m "name" = some (PyVal.str ci.name) ∧
      dlookup m "url" = some (PyVal.str ci.url) ∧
      dlookup m "homeworld" = none) := by
  refine ⟨?_, rfl, ?_⟩
  · intro fields nullable fn v hmem
    simp [map_input_to_model, List.foldlM, dlookup, dinsert, hmem,
      Except.instMonad, Except.bind, Except.pure]
  · refine ⟨_, map_character_input_to_model_eq ci, ?_, ?_, ?_, ?_, ?_, ?_, ?_,
      ?_, ?_, ?_⟩ <;> simp [dlookup]

/-- Witness for C7, the spec's round-trip: `height="unknown"` maps to
absent, `height="172"` stays `"172"`, and on a full character record with
`name="unknown"` the name survives while `gender="unknown"` becomes
absent. -/
theorem nullable_field_mapping_witness :
    (map_input_to_model [("height", PyVal.str "unknown")] ["height"] [] []
        ["height"] = Except.ok [("height", PyVal.pnone)] ∧
     map_input_to_model [("height", PyVal.str "172")] ["height"] [] []
        ["height"] = Except.ok [("height", PyVal.str "172")]) ∧
    (∃ m, map_character_input_to_model
        { name := "unknown", height := "172", mass := "77",
          hair_color := "blond", skin_color := "fair", eye_color := "blue",
          birth_year := "19BBY", gender := "unknown", homeworld := "hw",
          films := [], species := [], vehicles := [], starships := [],
          created := { naive := 0, tz := none },
          edited := { naive := 0, tz := none },
          url := "https://swapi.dev/api/people/1/" } = Except.ok m ∧
      dlookup m "name" = some (PyVal.str "unknown") ∧
      dlookup m "gender" = some PyVal.pnone ∧
      dlookup m "height" = some (PyVal.str "172")) := by
  have h := nullable_field_mapping
      { name := "unknown", height := "172", mass := "77",
        hair_color := "blond", skin_color := "fair", eye_color := "blue",
        birth_year := "19BBY", gender := "unknown", homeworld := "hw",
        films := [], species := [], vehicles := [], starships := [],
        created := { naive := 0, tz := none },
        edited := { naive := 0, tz := none },
        url := "https://swapi.dev/api/people/1/" }
  refine ⟨⟨?_, ?_⟩, ?_⟩
  · rw [h.1 ["height"] ["height"] "height" "unknown" (by decide)]
    simp
  · rw [h.1 ["height"] ["height"] "height" "172" (by decide)]
    simp
  · obtain ⟨m, hm, hheight, hmass, hhair, hskin, heye, hbirth, hgender, hname,
      hurl, hhw⟩ := h.2.2
    exact ⟨m, hm, by simpa using hname, by simpa using hgender,
      by simpa using hheight⟩

/-! ### Lemmas and claim theorem: ingestion fetcher -/

/-- The list comprehension validates records in order and the first
failure aborts the whole fetch. -/
theorem validate_all_short_circuit {ρ τ : Type}
    (validate : ρ → Except (List FieldError) τ)
    (good : List ρ) (bad : ρ) (rest : List ρ) (errs : List FieldError)
    (hgood : ∀ g ∈ good, ∃ v, validate g = Except.ok v)
    (hbad : validate bad = Except.error errs) :
    validate_all validate (good ++ bad :: rest) =
      Except.error (input_validation_exception errs) := by
  induction good with
  | nil => simp [validate_all, hbad]
  | cons g gs ih =>
    obtain ⟨v, hv⟩ := hgood g (List.mem_cons_self g gs)
    have ih2 := ih fun x hx => hgood x (List.mem_cons_of_mem g hx)
    simp [validate_all, hv, ih2]

/-- The decode-failure message and the status/transport-failure message
never coincide (they start with different words). -/
theorem json_msg_ne_status_msg (path a b : String) :
    "Invalid JSON response from SWAPI " ++ path ++ ": " ++ a ≠
      "Failed to fetch " ++ path ++ " from SWAPI: " ++ b := by
  intro h
  have h1 : ("Invalid JSON response from SWAPI " ++ path ++ ": " ++ a).data.head? =
      some 'I' := by
    rw [String.data_append, String.data_append, String.data_append]
    have hlit : ("Invalid JSON response from SWAPI " : String).data =
        'I' :: ("nvalid JSON response from SWAPI " : String).data := by decide
    rw [hlit]
    rfl
  have h2 : ("Failed to fetch " ++ path ++ " from SWAPI: " ++ b).data.head? =
      some 'F' := by
    rw [String.data_append, String.data_append, String.data_append]
    have hlit : ("Failed to fetch " : String).data =
        'F' :: ("ailed to fetch " : String).data := by decide
    rw [hlit]
    rfl
  rw [h, h2] at h1
  exact absurd h1 (by decide)

/-- C4: for every fetch of one resource collection, a transport fault
yields `ExternalServiceError`; a non-200 status yields
`ExternalServiceError` carrying the resource name and the status; a
malformed JSON body yields an `ExternalServiceError` whose message never
coincides with a status/transport failure message; and a schema
validation failure on any single record aborts the whole fetch with
`InputValidationError` carrying the per-field details — good records
before or after the bad one are not kept. -/
theorem parse_swapi_data_errors {ρ τ : Type} (path : String)
    (validate : ρ → Except (List FieldError) τ) :
    (∀ msg, parse_swapi_data path (RawFetch.clientError msg) validate =
      Except.error (PyExc.externalService
        ("Failed to fetch " ++ path ++ " from SWAPI: " ++ msg))) ∧
    (∀ status body, status ≠ 200 →
      parse_swapi_data path (RawFetch.response status body) validate =
        Except.error (PyExc.externalService
          ("Failed to fetch " ++ path ++ " from SWAPI: " ++ toString status))) ∧
    (∀ jmsg,
      parse_swapi_data path (RawFetch.response 200 (Except.error jmsg)) validate =
        Except.error (PyExc.externalService
          ("Invalid JSON response from SWAPI " ++ path ++ ": " ++ jmsg)) ∧
      ∀ other, "Invalid JSON response from SWAPI " ++ path ++ ": " ++ jmsg ≠
        "Failed to fetch " ++ path ++ " from SWAPI: " ++ other) ∧
    (∀ (good : List ρ) (bad : ρ) (rest : List ρ) (errs : List FieldError),
      (∀ g ∈ good, ∃ v, validate g = Except.ok v) →
      validate bad = Except.error errs →
      parse_swapi_data path
          (RawFetch.response 200 (Except.ok (good ++ bad :: rest))) validate =
        Except.error (PyExc.inputValidation errs)) := by
  refine ⟨fun msg => rfl, ?_, ?_, ?_⟩
  · intro status body h
    simp [parse_swapi_data, h]
  · intro jmsg
    exact ⟨rfl, fun other => json_msg_ne_status_msg path jmsg other⟩
  · intro good bad rest errs hgood hbad
    simp only [parse_swapi_data, if_pos rfl]
    exact validate_all_short_circuit validate good bad rest errs hgood hbad

/-- Witness for C4: resource `"starships"`, a validator rejecting the
record `0` with a per-field error, an HTTP 500 response (the spec's
Scenario B shape), and a mixed good/bad record list. -/
theorem parse_swapi_data_errors_witness :
    ((500 : Nat) ≠ 200 ∧
      parse_swapi_data "starships"
          (RawFetch.response 500 (Except.ok ([] : List Nat)))
          (fun r => if r = 0 then
            Except.error [{ field := "name", message := "Field required",
                            type := "missing", input := "0" }]
            else Except.ok r) =
        Except.error (PyExc.externalService
          ("Failed to fetch " ++ "starships" ++ " from SWAPI: " ++
            toString (500 : Nat)))) ∧
    ((∀ g ∈ [(1 : Nat)], ∃ v, (fun (r : Nat) => if r = 0 then
        (Except.error [{ field := "name", message := "Field required",
                         type := "missing", input := "0" }] :
          Except (List FieldError) Nat)
        else Except.ok r) g = Except.ok v) ∧
      parse_swapi_data "starships"
          (RawFetch.response 200 (Except.ok ([1] ++ 0 :: [2])))
          (fun r => if r = 0 then
            Except.error [{ field := "name", message := "Field required",
                            type := "missing", input := "0" }]
            else Except.ok r) =
        Except.error (PyExc.inputValidation
          [{ field := "name", message := "Field required",
             type := "missing", input := "0" }])) := by
  constructor
  · exact ⟨by decide,
      (parse_swapi_data_errors "starships" _).2.1 500 (Except.ok []) (by decide)⟩
  · refine ⟨?_, ?_⟩
    · intro g hg
      simp at hg
      exact ⟨1, by simp [hg]⟩
    · exact (parse_swapi_data_errors "starships" _).2.2.2 [1] 0 [2] _
        (by intro g hg; simp at hg; exact ⟨1, by simp [hg]⟩) (by rfl)

/-! ### Dictionary lemmas -/

theorem dlookup_dinsert_self {α : Type} (l : List (String × α)) (k : String)
    (v : α) : dlookup (dinsert l k v) k = some v := by
  induction l with
  | nil => simp [dinsert, dlookup]
  | cons kv rest ih =>
    obtain ⟨k', v'⟩ := kv
    by_cases hk : k' = k
    · simp [dinsert, dlookup, hk]
    · simp [dinsert, dlookup, hk, ih]

theorem dlookup_dinsert_ne {α : Type} (l : List (String × α)) (k u : String)
    (v : α) (h : u ≠ k) : dlookup (dinsert l k v) u = dlookup l u := by
  induction l with
  | nil =>
    simp [dinsert, dlookup]
    intro he
    exact absurd he.symm h
  | cons kv rest ih =>
    obtain ⟨k', v'⟩ := kv
    by_cases hk : k' = k
    · subst hk
      simp only [dinsert, if_pos rfl]
      have h2 : ¬ k' = u := fun he => h (he.symm)
      simp [dlookup, h2]
    · simp only [dinsert, if_neg hk]
      by_cases hu : k' = u
      · simp [dlookup, hu]
      · simp [dlookup, hu, ih]

theorem dlookup_dinsert_isSome {α : Type} (l : List (String × α)) (k u : String)
    (v : α) : (dlookup (dinsert l k v) u).isSome ↔
      (u = k ∨ (dlookup l u).isSome) := by
  by_cases hu : u = k
  · subst hu
    simp [dlookup_dinsert_self]
  · simp [dlookup_dinsert_ne l k u v hu, hu]

/-! ### Map-phase facts -/

/-- Loop invariant of the film map phase: final entries either survive
from the initial dictionary or are freshly mapped film objects with empty
association collections and the url they are keyed under. -/
theorem build_films_loop (films_data : List FilmInput) :
    ∀ (init films : List (String × FilmModel)),
    films_data.foldlM (fun films film_data => do
      let fields ← map_film_input_to_model film_data
      let id ← extract_id_or_raise film_data.url
      Except.ok (dinsert films film_data.url
        { fields := fields, id := id, url := film_data.url,
          characters := [], starships := [] })) init = Except.ok films →
    (∀ u, (dlookup films u).isSome ↔
      ((dlookup init u).isSome ∨ u ∈ films_data.map FilmInput.url)) ∧
    (∀ u fm, dlookup films u = some fm →
      (dlookup init u = some fm ∨
       (fm.characters = [] ∧ fm.starships = [] ∧ fm.url = u))) := by
  induction films_data with
  | nil =>
    intro init films h
    have h2 : init = films := by
      simpa [pure, Except.pure] using h
    subst h2
    exact ⟨fun u => by simp, fun u fm hm => Or.inl hm⟩
  | cons fdata rest ih =>
    intro init films h
    rw [List.foldlM_cons] at h
    rcases hmap : map_film_input_to_model fdata with e | fields <;>
      rw [hmap] at h
    · simp [Except.instMonad, Except.bind] at h
    rcases hid : extract_id_or_raise fdata.url with e | id <;> rw [hid] at h
    · simp [Except.instMonad, Except.bind] at h
    simp only [Except.instMonad, Except.bind] at h
    obtain ⟨hmem, hval⟩ := ih _ _ h
    constructor
    · intro u
      rw [hmem u, dlookup_dinsert_isSome, List.map_cons, List.mem_cons]
      tauto
    · intro u fm hfm
      rcases hval u fm hfm with hini | hfresh
      · by_cases hu : u = fdata.url
        · subst hu
          rw [dlookup_dinsert_self init _ _] at hini
          injection hini with h2
          exact Or.inr (by rw [← h2]; exact ⟨rfl, rfl, rfl⟩)
        · rw [dlookup_dinsert_ne _ _ _ _ hu] at hini
          exact Or.inl hini
      · exact Or.inr hfresh

/-- Facts about the film dictionary built by the map phase (starting from
the empty dictionary): its keys are exactly the film urls, and every
entry is a freshly mapped film with empty association collections. -/
theorem build_films_facts (films_data : List FilmInput)
    (films : List (String × FilmModel))
    (h : build_films films_data = Except.ok films) :
    (∀ u, (dlookup films u).isSome ↔ u ∈ films_data.map FilmInput.url) ∧
    (∀ u fm, dlookup films u = some fm →
      fm.characters = [] ∧ fm.starships = [] ∧ fm.url = u) := by
  obtain ⟨hmem, hval⟩ := build_films_loop films_data [] films h
  constructor
  · intro u
    rw [hmem u]
    simp [dlookup]
  · intro u fm hfm
    rcases hval u fm hfm with hini | hfresh
    · simp [dlookup] at hini
    · exact hfresh

/-- Loop invariant of the character map phase (same shape as
`build_films_loop`). -/
theorem build_characters_loop (people_data : List CharacterInput) :
    ∀ (init characters : List (String × CharacterModel)),
    people_data.foldlM (fun characters char_data => do
      let fields ← map_character_input_to_model char_data
      let id ← extract_id_or_raise char_data.url
      Except.ok (dinsert characters char_data.url
        { fields := fields, id := id, url := char_data.url,
          starships := [] })) init = Except.ok characters →
    (∀ u, (dlookup characters u).isSome ↔
      ((dlookup init u).isSome ∨ u ∈ people_data.map CharacterInput.url)) ∧
    (∀ u cm, dlookup characters u = some cm →
      (dlookup init u = some cm ∨ (cm.starships = [] ∧ cm.url = u))) := by
  induction people_data with
  | nil =>
    intro init characters h
    have h2 : init = characters := by
      simpa [pure, Except.pure] using h
    subst h2
    exact ⟨fun u => by simp, fun u cm hm => Or.inl hm⟩
  | cons cdata rest ih =>
    intro init characters h
    rw [List.foldlM_cons] at h
    rcases hmap : map_character_input_to_model cdata with e | fields <;>
      rw [hmap] at h
    · simp [Except.instMonad, Except.bind] at h
    rcases hid : extract_id_or_raise cdata.url with e | id <;> rw [hid] at h
    · simp [Except.instMonad, Except.bind] at h
    simp only [Except.instMonad, Except.bind] at h
    obtain ⟨hmem, hval⟩ := ih _ _ h
    constructor
    · intro u
      rw [hmem u, dlookup_dinsert_isSome, List.map_cons, List.mem_cons]
      tauto
    · intro u cm hcm
      rcases hval u cm hcm with hini | hfresh
      · by_cases hu : u = cdata.url
        · subst hu
          rw [dlookup_dinsert_self init _ _] at hini
          injection hini with h2
          exact Or.inr (by rw [← h2]; exact ⟨rfl, rfl⟩)
        · rw [dlookup_dinsert_ne _ _ _ _ hu] at hini
          exact Or.inl hini
      · exact Or.inr hfresh

/-- Facts about the character dictionary built by the map phase. -/
theorem build_characters_facts (people_data : List CharacterInput)
    (characters : List (String × CharacterModel))
    (h : build_characters people_data = Except.ok characters) :
    (∀ u, (dlookup characters u).isSome ↔
      u ∈ people_data.map CharacterInput.url) ∧
    (∀ u cm, dlookup characters u = some cm →
      cm.starships = [] ∧ cm.url = u) := by
  obtain ⟨hmem, hval⟩ := build_characters_loop people_data [] characters h
  constructor
  · intro u
    rw [hmem u]
    simp [dlookup]
  · intro u cm hcm
    rcases hval u cm hcm with hini | hfresh
    · simp [dlookup] at hini
    · exact hfresh

/-- Loop invariant of the starship map phase: keys are the starship urls
already inserted. -/
theorem build_starships_loop (starships_data : List StarshipInput) :
    ∀ (init starships : List (String × StarshipModel)),
    starships_data.foldlM (fun starships ship_data => do
      let fields ← map_starship_input_to_model ship_data
      let id ← extract_id_or_raise ship_data.url
      Except.ok (dinsert starships ship_data.url
        { fields := fields, id := id, url := ship_data.url })) init =
      Except.ok starships →
    (∀ u, (dlookup starships u).isSome ↔
      ((dlookup init u).isSome ∨ u ∈ starships_data.map StarshipInput.url)) := by
  induction starships_data with
  | nil =>
    intro init starships h
    have h2 : init = starships := by
      simpa [pure, Except.pure] using h
    subst h2
    intro u
    simp
  | cons sdata rest ih =>
    intro init starships h
    rw [List.foldlM_cons] at h
    rcases hmap : map_starship_input_to_model sdata with e | fields <;>
      rw [hmap] at h
    · simp [Except.instMonad, Except.bind] at h
    rcases hid : extract_id_or_raise sdata.url with e | id <;> rw [hid] at h
    · simp [Except.instMonad, Except.bind] at h
    simp only [Except.instMonad, Except.bind] at h
    have hmem := ih _ _ h
    intro u
    rw [hmem u, dlookup_dinsert_isSome, List.map_cons, List.mem_cons]
    tauto

/-- Keys of the starship dictionary built by the map phase. -/
theorem build_starships_facts (starships_data : List StarshipInput)
    (starships : List (String × StarshipModel))
    (h : build_starships starships_data = Except.ok starships) :
    ∀ u, (dlookup starships u).isSome ↔
      u ∈ starships_data.map StarshipInput.url := by
  intro u
  rw [build_starships_loop starships_data [] starships h u]
  simp [dlookup]

/-! ### Link-phase facts -/

/-- Generic fact about the link loops: a fold whose step only rewrites the
dictionary entry of the record being processed leaves every other key
untouched. -/
theorem foldl_dict_outside {ι μ : Type} (key : ι → String)
    (step : List (String × μ) → ι → List (String × μ))
    (hstep : ∀ d i u, u ≠ key i → dlookup (step d i) u = dlookup d u)
    (data : List ι) :
    ∀ (d : List (String × μ)) (u : String), u ∉ data.map key →
      dlookup (data.foldl step d) u = dlookup d u := by
  induction data with
  | nil => intro d u _; rfl
  | cons i rest ih =>
    intro d u h
    rw [List.map_cons, List.mem_cons] at h
    push_neg at h
    rw [List.foldl_cons, ih _ u h.2, hstep d i u h.1]

/-- Generic fact about the link loops: when the processed keys are
distinct and every record has an entry, the final entry of a record is
its initial entry transformed by the step's update function. -/
theorem foldl_dict_lookup {ι μ : Type} (key : ι → String)
    (step : List (String × μ) → ι → List (String × μ))
    (upd : ι → μ → μ)
    (hstep_hit : ∀ d i m, dlookup d (key i) = some m →
      step d i = dinsert d (key i) (upd i m))
    (hstep_outside : ∀ d i u, u ≠ key i → dlookup (step d i) u = dlookup d u)
    (data : List ι) :
    (data.map key).Nodup →
    ∀ d : List (String × μ), ∀ i ∈ data, ∀ m, dlookup d (key i) = some m →
      dlookup (data.foldl step d) (key i) = some (upd i m) := by
  induction data with
  | nil =>
    intro _ d i hi
    exact absurd hi (List.not_mem_nil i)
  | cons j rest ih =>
    intro hnodup d i hi m hm
    rw [List.map_cons] at hnodup
    obtain ⟨hj, hrest⟩ := List.nodup_cons.mp hnodup
    rw [List.foldl_cons]
    rcases List.mem_cons.mp hi with hij | hir
    · subst hij
      rw [foldl_dict_outside key step hstep_outside rest _ _ hj,
        hstep_hit d i m hm]
      exact dlookup_dinsert_self _ _ _
    · have hne : key i ≠ key j :=
        fun he => hj (he ▸ List.mem_map_of_mem key hir)
      have hm2 : dlookup (step d j) (key i) = some m := by
        rw [hstep_outside d j (key i) hne]
        exact hm
      exact ih hrest (step d j) i hir m hm2

/-- Effect of the inner starship-attachment loop of `link_characters` on
one character: the url is unchanged, distinctness of the starship
collection is preserved (a url is only appended when absent), and the
final collection holds exactly the prior entries plus the resolvable
listed urls. -/
theorem attach_starships_facts (ships : List (String × StarshipModel))
    (urls : List String) :
    ∀ c : CharacterModel,
    (urls.foldl (fun character ship_url =>
        if (dlookup ships ship_url).isSome ∧ ship_url ∉ character.starships then
          { character with starships := character.starships ++ [ship_url] }
        else character) c).url = c.url ∧
    (c.starships.Nodup →
      (urls.foldl (fun character ship_url =>
        if (dlookup ships ship_url).isSome ∧ ship_url ∉ character.starships then
          { character with starships := character.starships ++ [ship_url] }
        else character) c).starships.Nodup) ∧
    (∀ u, u ∈ (urls.foldl (fun character ship_url =>
        if (dlookup ships ship_url).isSome ∧ ship_url ∉ character.starships then
          { character with starships := character.starships ++ [ship_url] }
        else character) c).starships ↔
      (u ∈ c.starships ∨ (u ∈ urls ∧ (dlookup ships u).isSome))) := by
  induction urls with
  | nil =>
    intro c
    exact ⟨rfl, fun h => h, fun u => by simp⟩
  | cons u0 us ih =>
    intro c
    rw [List.foldl_cons]
    by_cases hcond : (dlookup ships u0).isSome ∧ u0 ∉ c.starships
    · rw [if_pos hcond]
      obtain ⟨hu0, hmem0⟩ := hcond
      obtain ⟨ihurl, ihnodup, ihmem⟩ :=
        ih { c with starships := c.starships ++ [u0] }
      refine ⟨ihurl, ?_, ?_⟩
      · intro hnd
        apply ihnodup
        rw [List.nodup_append]
        exact ⟨hnd, List.nodup_singleton u0,
          by rw [List.disjoint_singleton]; exact hmem0⟩
      · intro u
        rw [ihmem u]
        simp only [List.mem_append, List.mem_singleton, List.mem_cons,
          List.mem_nil_iff, or_false]
        constructor
        · rintro ((h | rfl) | h)
          · exact Or.inl h
          · exact Or.inr ⟨Or.inl rfl, hu0⟩
          · exact Or.inr ⟨Or.inr h.1, h.2⟩
        · rintro (h | ⟨rfl | h1, h2⟩)
          · exact Or.inl (Or.inl h)
          · exact Or.inl (Or.inr rfl)
          · exact Or.inr ⟨h1, h2⟩
    · rw [if_neg hcond]
      obtain ⟨ihurl, ihnodup, ihmem⟩ := ih c
      refine ⟨ihurl, ihnodup, ?_⟩
      intro u
      rw [ihmem u]
      push_neg at hcond
      constructor
      · rintro (h | h)
        · exact Or.inl h
        · exact Or.inr ⟨List.mem_cons_of_mem u0 h.1, h.2⟩
      · rintro (h | ⟨h1, h2⟩)
        · exact Or.inl h
        · rcases List.mem_cons.mp h1 with he | he
          · subst he
            exact Or.inl (hcond h2)
          · exact Or.inr ⟨he, h2⟩

/-- Entry of one film after the film link loop: its prior collections
extended with exactly the resolvable listed character/starship urls. -/
theorem link_films_lookup
    (chars : List (String × CharacterModel))
    (ships : List (String × StarshipModel))
    (films_data : List FilmInput)
    (hnodup : (films_data.map FilmInput.url).Nodup)
    (films : List (String × FilmModel))
    (f : FilmInput) (hf : f ∈ films_data)
    (fm : FilmModel) (hm : dlookup films f.url = some fm) :
    dlookup (link_films films chars ships films_data) f.url =
      some { fm with
        characters := fm.characters ++
          f.characters.filter (fun u => (dlookup chars u).isSome),
        starships := fm.starships ++
          f.starships.filter (fun u => (dlookup ships u).isSome) } := by
  refine foldl_dict_lookup FilmInput.url
    (fun films film_data =>
      match dlookup films film_data.url with
      | none => films
      | some film =>
        dinsert films film_data.url
          { film with
            characters := film.characters ++
              film_data.characters.filter
                (fun char_url => (dlookup chars char_url).isSome),
            starships := film.starships ++
              film_data.starships.filter
                (fun ship_url => (dlookup ships ship_url).isSome) })
    (fun fd film => { film with
      characters := film.characters ++
        fd.characters.filter (fun u => (dlookup chars u).isSome),
      starships := film.starships ++
        fd.starships.filter (fun u => (dlookup ships u).isSome) })
    ?_ ?_ films_data hnodup films f hf fm hm
  · intro d i m hmi
    simp only [hmi]
  · intro d i u hne
    rcases hd : dlookup d i.url with _ | film
    · simp only [hd]
    · simp only [hd]
      exact dlookup_dinsert_ne _ _ _ _ hne

/-- Entry of one character after the character link loop: the attachment
fold applied to its prior entry. -/
theorem link_characters_lookup
    (ships : List (String × StarshipModel))
    (people_data : List CharacterInput)
    (hnodup : (people_data.map CharacterInput.url).Nodup)
    (characters : List (String × CharacterModel))
    (c : CharacterInput) (hc : c ∈ people_data)
    (cm : CharacterModel) (hm : dlookup characters c.url = some cm) :
    dlookup (link_characters characters ships people_data) c.url =
      some (c.starships.foldl (fun character ship_url =>
        if (dlookup ships ship_url).isSome ∧ ship_url ∉ character.starships then
          { character with starships := character.starships ++ [ship_url] }
        else character) cm) := by
  refine foldl_dict_lookup CharacterInput.url
    (fun characters char_data =>
      match dlookup characters char_data.url with
      | none => characters
      | some character =>
        dinsert characters char_data.url
          (char_data.starships.foldl (fun character ship_url =>
            if (dlookup ships ship_url).isSome ∧
                ship_url ∉ character.starships then
              { character with starships := character.starships ++ [ship_url] }
            else character) character))
    (fun cd cm => cd.starships.foldl (fun character ship_url =>
        if (dlookup ships ship_url).isSome ∧ ship_url ∉ character.starships then
          { character with starships := character.starships ++ [ship_url] }
        else character) cm)
    ?_ ?_ people_data hnodup characters c hc cm hm
  · intro d i m hmi
    simp only [hmi]
  · intro d i u hne
    rcases hd : dlookup d i.url with _ | character
    · simp only [hd]
    · simp only [hd]
      exact dlookup_dinsert_ne _ _ _ _ hne

/-! ### Claim theorem: populate link phase -/

/-- C8: after the link phase, each film's collections hold exactly the
listed character/starship urls that resolve in the fetched sets (an
unresolved url is skipped without error — the phase is total); each
character's starship collection holds exactly its resolvable listed
starship urls with no duplicate attachment; and in the concrete
one-film/one-character/one-starship scenario the film's collections each
hold exactly one entity and the character's collection holds the
starship. -/
theorem populate_link_associations
    (films_data : List FilmInput) (people_data : List CharacterInput)
    (starships_data : List StarshipInput) (staged : StagedData)
    (hok : build_staged films_data people_data starships_data =
      Except.ok staged)
    (hfn : (films_data.map FilmInput.url).Nodup)
    (hpn : (people_data.map CharacterInput.url).Nodup) :
    (∀ f ∈ films_data, ∃ fm, dlookup staged.films f.url = some fm ∧
      fm.characters = f.characters.filter
        (fun u => decide (u ∈ people_data.map CharacterInput.url)) ∧
      fm.starships = f.starships.filter
        (fun u => decide (u ∈ starships_data.map StarshipInput.url))) ∧
    (∀ c ∈ people_data, ∃ cm, dlookup staged.characters c.url = some cm ∧
      cm.starships.Nodup ∧
      (∀ u, u ∈ cm.starships ↔
        (u ∈ c.starships ∧ u ∈ starships_data.map StarshipInput.url))) ∧
    (build_staged [scenario_film] [scenario_character]
        [scenario_starship]).toOption.map
        (fun st =>
          ((dlookup st.films scenario_film.url).map FilmModel.characters,
           (dlookup st.films scenario_film.url).map FilmModel.starships,
           (dlookup st.characters scenario_character.url).map
             CharacterModel.starships)) =
      some (some [scenario_character.url], some [scenario_starship.url],
            some [scenario_starship.url]) := by
  rcases hbf : build_films films_data with e | films0 <;>
    rcases hbc : build_characters people_data with e2 | chars0 <;>
    rcases hbs : build_starships starships_data with e3 | ships0 <;>
    simp [build_staged, hbf, hbc, hbs, Except.instMonad, Except.bind] at hok
  subst hok
  obtain ⟨hfmem, hfval⟩ := build_films_facts films_data films0 hbf
  obtain ⟨hcmem, hcval⟩ := build_characters_facts people_data chars0 hbc
  have hsmem := build_starships_facts starships_data ships0 hbs
  have hcpred : (fun u => (dlookup chars0 u).isSome) =
      (fun u => decide (u ∈ people_data.map CharacterInput.url)) := by
    funext u
    by_cases hmem : u ∈ people_data.map CharacterInput.url
    · simp [hmem, (hcmem u).mpr hmem]
    · have hns : ¬ (dlookup chars0 u).isSome = true :=
        fun hs => hmem ((hcmem u).mp hs)
      simp [hmem, hns]
  have hspred : (fun u => (dlookup ships0 u).isSome) =
      (fun u => decide (u ∈ starships_data.map StarshipInput.url)) := by
    funext u
    by_cases hmem : u ∈ starships_data.map StarshipInput.url
    · simp [hmem, (hsmem u).mpr hmem]
    · have hns : ¬ (dlookup ships0 u).isSome = true :=
        fun hs => hmem ((hsmem u).mp hs)
      simp [hmem, hns]
  refine ⟨?_, ?_, by decide⟩
  · intro f hf
    have hsome : (dlookup films0 f.url).isSome :=
      (hfmem f.url).mpr (List.mem_map_of_mem FilmInput.url hf)
    obtain ⟨fm, hm⟩ := Option.isSome_iff_exists.mp hsome
    obtain ⟨hch0, hsh0, _⟩ := hfval f.url fm hm
    have hlink := link_films_lookup chars0 ships0 films_data hfn films0 f hf fm hm
    refine ⟨_, hlink, ?_, ?_⟩
    · rw [hch0, List.nil_append, hcpred]
    · rw [hsh0, List.nil_append, hspred]
  · intro c hc
    have hsome : (dlookup chars0 c.url).isSome :=
      (hcmem c.url).mpr (List.mem_map_of_mem CharacterInput.url hc)
    obtain ⟨cm, hm⟩ := Option.isSome_iff_exists.mp hsome
    obtain ⟨hsh0, _⟩ := hcval c.url cm hm
    have hlink := link_characters_lookup ships0 people_data hpn chars0 c hc cm hm
    obtain ⟨haurl, hanodup, hamem⟩ :=
      attach_starships_facts ships0 c.starships cm
    refine ⟨_, hlink, ?_, ?_⟩
    · exact hanodup (by rw [hsh0]; exact List.nodup_nil)
    · intro u
      rw [hamem u, hsh0]
      simp only [List.not_mem_nil, false_or]
      constructor
      · rintro ⟨h1, h2⟩
        exact ⟨h1, (hsmem u).mp h2⟩
      · rintro ⟨h1, h2⟩
        exact ⟨h1, (hsmem u).mpr h2⟩

/-- Witness for C8 at the Scenario A records. -/
theorem populate_link_associations_witness :
    ∃ st, build_staged [scenario_film] [scenario_character]
        [scenario_starship] = Except.ok st ∧
      (∃ fm, dlookup st.films scenario_film.url = some fm ∧
        fm.characters = [scenario_character.url] ∧
        fm.starships = [scenario_starship.url]) ∧
      (∃ cm, dlookup st.characters scenario_character.url = some cm ∧
        scenario_starship.url ∈ cm.starships ∧ cm.starships.Nodup) := by
  have hsome : (build_staged [scenario_film] [scenario_character]
      [scenario_starship]).toOption.isSome = true := by decide
  cases hb : build_staged [scenario_film] [scenario_character]
      [scenario_starship] with
  | error e =>
    rw [hb] at hsome
    simp [Except.toOption] at hsome
  | ok st =>
    have h := populate_link_associations [scenario_film] [scenario_character]
      [scenario_starship] st hb (by decide) (by decide)
    obtain ⟨fm, hfm, hch, hsh⟩ :=
      h.1 scenario_film (List.mem_cons_self scenario_film [])
    obtain ⟨cm, hcm, hnodup, hmem⟩ :=
      h.2.1 scenario_character (List.mem_cons_self scenario_character [])
    refine ⟨st, rfl, ⟨fm, hfm, ?_, ?_⟩, ⟨cm, hcm, ?_, hnodup⟩⟩
    · rw [hch]; decide
    · rw [hsh]; decide
    · exact (hmem scenario_starship.url).mpr ⟨by decide, by decide⟩

/-! ### Claim theorem: atomic commit -/

/-- C1: with the staged unit of work built, the single commit either
succeeds — and then every mapped entity together with its association
collections becomes durable — or the injected persistence failure makes
the operation roll back and fail with `DatabaseError` carrying the
underlying cause, leaving the database rows exactly as before (no partial
commit). -/
theorem populate_with_associations_atomic
    (films_data : List FilmInput) (people_data : List CharacterInput)
    (starships_data : List StarshipInput) (staged : StagedData)
    (db : DbState)
    (hok : build_staged films_data people_data starships_data =
      Except.ok staged) :
    populate_with_associations none films_data people_data starships_data db =
      ({ films := db.films ++ staged.films.map Prod.snd,
         characters := db.characters ++ staged.characters.map Prod.snd,
         starships := db.starships ++ staged.starships.map Prod.snd },
       Except.ok ()) ∧
    (∀ m, populate_with_associations (some m) films_data people_data
        starships_data db =
      (db, Except.error (PyExc.database
        ("Failed to commit database transaction: " ++ m)))) := by
  constructor
  · simp [populate_with_associations, hok]
  · intro m
    simp [populate_with_associations, hok]

/-- Witness for C1: a database holding one prior film row; the faulty
commit leaves it untouched, the clean commit appends the staged rows. -/
theorem populate_with_associations_atomic_witness :
    populate_with_associations (some "connection lost") [] [] []
        { films := [{ fields := [], id := 7, url := "u",
                      characters := [], starships := [] }],
          characters := [], starships := [] } =
      ({ films := [{ fields := [], id := 7, url := "u",
                     characters := [], starships := [] }],
         characters := [], starships := [] },
       Except.error (PyExc.database
        ("Failed to commit database transaction: " ++ "connection lost"))) ∧
    populate_with_associations none [] [] []
        { films := [{ fields := [], id := 7, url := "u",
                      characters := [], starships := [] }],
          characters := [], starships := [] } =
      ({ films := [{ fields := [], id := 7, url := "u",
                     characters := [], starships := [] }] ++
           List.map Prod.snd ([] : List (String × FilmModel)),
         characters := [] ++ List.map Prod.snd ([] : List (String × CharacterModel)),
         starships := [] ++ List.map Prod.snd ([] : List (String × StarshipModel)) },
       Except.ok ()) := by
  have h := populate_with_associations_atomic [] [] []
    { films := [], characters := [], starships := [] }
    { films := [{ fields := [], id := 7, url := "u",
                  characters := [], starships := [] }],
      characters := [], starships := [] } rfl
  exact ⟨h.2 "connection lost", h.1⟩

/-! ### Claim theorem: populate wrapper -/

/-- Every error produced by `_parse_swapi_data` is an
`ExternalServiceException` or an `InputValidationException`. -/
theorem parse_swapi_data_error_kind {ρ τ : Type} (path : String)
    (fetch : RawFetch ρ) (validate : ρ → Except (List FieldError) τ)
    (e : PyExc) (h : parse_swapi_data path fetch validate = Except.error e) :
    (∃ m, e = PyExc.externalService m) ∨
      (∃ errs, e = PyExc.inputValidation errs) := by
  cases fetch with
  | clientError m =>
    left
    injection h with h
    exact ⟨_, h.symm⟩
  | response status body =>
    by_cases hs : status = 200
    · subst hs
      simp only [parse_swapi_data, if_pos rfl] at h
      cases body with
      | error jm =>
        left
        injection h with h
        exact ⟨_, h.symm⟩
      | ok items =>
        right
        induction items with
        | nil => exact absurd h (by simp [validate_all])
        | cons item rest ih =>
          rcases hv : validate item with errs | v <;>
            simp only [validate_all, hv] at h ih
          · injection h with h
            exact ⟨errs, h.symm⟩
          · rcases hr : validate_all validate rest with e2 | vs <;>
              rw [hr] at h ih
            · injection h with h
              exact ih (by simp [h])
            · exact absurd h (by simp)
    · simp only [parse_swapi_data, if_neg hs] at h
      left
      injection h with h
      exact ⟨_, h.symm⟩

/-- The fetch-phase exceptions pass through the wrapper's first `except`
clause unchanged. -/
theorem wrap_populate_error_fetch {ρ τ : Type} (path : String)
    (fetch : RawFetch ρ) (validate : ρ → Except (List FieldError) τ)
    (e : PyExc) (h : parse_swapi_data path fetch validate = Except.error e) :
    wrap_populate_error e = e := by
  rcases parse_swapi_data_error_kind path fetch validate e h with
    ⟨m, rfl⟩ | ⟨errs, rfl⟩ <;> rfl

/-- C6: the populate wrapper re-raises `InputValidationError`,
`ExternalServiceError` and `DatabaseError` unchanged after rolling back
(the committed rows stay exactly `db`); any other unexpected failure — a
`ValueError` escaping the map phase — is wrapped into a generic
`InternalError` carrying the original cause in its details, also after
rolling back; and on full success it returns the simple success
acknowledgement. -/
theorem populatedb_wrapper_behavior {ρ₁ ρ₂ ρ₃ : Type}
    (films_fetch : RawFetch ρ₁) (people_fetch : RawFetch ρ₂)
    (ships_fetch : RawFetch ρ₃)
    (vf : ρ₁ → Except (List FieldError) FilmInput)
    (vp : ρ₂ → Except (List FieldError) CharacterInput)
    (vs : ρ₃ → Except (List FieldError) StarshipInput)
    (db : DbState) :
    (∀ fault e, parse_swapi_data "films" films_fetch vf = Except.error e →
      populatedb_wrapper films_fetch people_fetch ships_fetch vf vp vs fault db =
        (db, Except.error e)) ∧
    (∀ fault fd e, parse_swapi_data "films" films_fetch vf = Except.ok fd →
      parse_swapi_data "people" people_fetch vp = Except.error e →
      populatedb_wrapper films_fetch people_fetch ships_fetch vf vp vs fault db =
        (db, Except.error e)) ∧
    (∀ fault fd pd e, parse_swapi_data "films" films_fetch vf = Except.ok fd →
      parse_swapi_data "people" people_fetch vp = Except.ok pd →
      parse_swapi_data "starships" ships_fetch vs = Except.error e →
      populatedb_wrapper films_fetch people_fetch ships_fetch vf vp vs fault db =
        (db, Except.error e)) ∧
    (∀ fd pd sd staged m,
      parse_swapi_data "films" films_fetch vf = Except.ok fd →
      parse_swapi_data "people" people_fetch vp = Except.ok pd →
      parse_swapi_data "starships" ships_fetch vs = Except.ok sd →
      build_staged fd pd sd = Except.ok staged →
      populatedb_wrapper films_fetch people_fetch ships_fetch vf vp vs
          (some m) db =
        (db, Except.error (PyExc.database
          ("Failed to commit database transaction: " ++ m)))) ∧
    (∀ fault fd pd sd msg,
      parse_swapi_data "films" films_fetch vf = Except.ok fd →
      parse_swapi_data "people" people_fetch vp = Except.ok pd →
      parse_swapi_data "starships" ships_fetch vs = Except.ok sd →
      build_staged fd pd sd = Except.error msg →
      populatedb_wrapper films_fetch people_fetch ships_fetch vf vp vs fault db =
        (db, Except.error (PyExc.internal
          "An unexpected error occurred during database population"
          [("error", msg)]))) ∧
    (∀ fd pd sd staged,
      parse_swapi_data "films" films_fetch vf = Except.ok fd →
      parse_swapi_data "people" people_fetch vp = Except.ok pd →
      parse_swapi_data "starships" ships_fetch vs = Except.ok sd →
      build_staged fd pd sd = Except.ok staged →
      populatedb_wrapper films_fetch people_fetch ships_fetch vf vp vs none db =
        ({ films := db.films ++ staged.films.map Prod.snd,
           characters := db.characters ++ staged.characters.map Prod.snd,
           starships := db.starships ++ staged.starships.map Prod.snd },
         Except.ok { message := "Operation successful" })) := by
  refine ⟨?_, ?_, ?_, ?_, ?_, ?_⟩
  · intro fault e he
    simp only [populatedb_wrapper, he, Except.instMonad, Except.bind]
    rw [wrap_populate_error_fetch "films" films_fetch vf e he]
  · intro fault fd e hf he
    simp only [populatedb_wrapper, hf, he, Except.instMonad, Except.bind]
    rw [wrap_populate_error_fetch "people" people_fetch vp e he]
  · intro fault fd pd e hf hp he
    simp only [populatedb_wrapper, hf, hp, he, Except.instMonad, Except.bind]
    rw [wrap_populate_error_fetch "starships" ships_fetch vs e he]
  · intro fd pd sd staged m hf hp hs hstaged
    simp [populatedb_wrapper, hf, hp, hs, populate_with_associations, hstaged,
      wrap_populate_error, Except.instMonad, Except.bind]
  · intro fault fd pd sd msg hf hp hs hstaged
    simp [populatedb_wrapper, hf, hp, hs, populate_with_associations, hstaged,
      wrap_populate_error, PyExc.str, Except.instMonad, Except.bind]
  · intro fd pd sd staged hf hp hs hstaged
    simp [populatedb_wrapper, hf, hp, hs, populate_with_associations, hstaged,
      Except.instMonad, Except.bind]

/-- Witness for C6: three successful empty fetches; the faulty commit
rolls back and surfaces the `DatabaseError` unchanged, the clean run
returns the success acknowledgement. -/
theorem populatedb_wrapper_behavior_witness :
    populatedb_wrapper (RawFetch.response 200 (Except.ok ([] : List Unit)))
        (RawFetch.response 200 (Except.ok ([] : List Unit)))
        (RawFetch.response 200 (Except.ok ([] : List Unit)))
        (fun _ => Except.error []) (fun _ => Except.error [])
        (fun _ => Except.error []) (some "boom")
        { films := [], characters := [], starships := [] } =
      ({ films := [], characters := [], starships := [] },
       Except.error (PyExc.database
        ("Failed to commit database transaction: " ++ "boom"))) ∧
    populatedb_wrapper (RawFetch.response 200 (Except.ok ([] : List Unit)))
        (RawFetch.response 200 (Except.ok ([] : List Unit)))
        (RawFetch.response 200 (Except.ok ([] : List Unit)))
        (fun _ => Except.error []) (fun _ => Except.error [])
        (fun _ => Except.error []) none
        { films := [], characters := [], starships := [] } =
      ({ films := ([] : List FilmModel) ++ List.map Prod.snd
           ([] : List (String × FilmModel)),
         characters := ([] : List CharacterModel) ++ List.map Prod.snd
           ([] : List (String × CharacterModel)),
         starships := ([] : List StarshipModel) ++ List.map Prod.snd
           ([] : List (String × StarshipModel)) },
       Except.ok { message := "Operation successful" }) := by
  have h := populatedb_wrapper_behavior
    (RawFetch.response 200 (Except.ok ([] : List Unit)))
    (RawFetch.response 200 (Except.ok ([] : List Unit)))
    (RawFetch.response 200 (Except.ok ([] : List Unit)))
    (fun _ => Except.error []) (fun _ => Except.error [])
    (fun _ => Except.error [])
    { films := [], characters := [], starships := [] }
  exact ⟨h.2.2.2.1 [] [] [] { films := [], characters := [], starships := [] }
      "boom" rfl rfl rfl rfl,
    h.2.2.2.2.2 [] [] [] { films := [], characters := [], starships := [] }
      rfl rfl rfl rfl⟩
